import Mathlib

/-!
# CSAT survey relay: a shallow embedding of `script.js`

The script attributes a survey row to a support agent and posts an internal note to the
ticket.  The functions of `script.js` are embedded as Lean functions:

* values read from a sheet cell are the sum type `Cell`;
* a JavaScript number is `JsNumber`: a rational (the value of a finite double), an
  infinity or `NaN`; `parseInt` rounds to the nearest double (`doubleOfNat`), the counters
  and the comparisons with small constants are exact;
* `UrlFetchApp.fetch` is an oracle `ZendeskApi` from requests to responses, and every
  function that talks to Zendesk also returns the list of requests it issued;
* `throw new Error(..)` is `Except.error`;
* library functions whose full definition is outside the script (Unicode lower-casing,
  number and date formatting, parsing of numeric text) are the fields of `JsBuiltins`.
-/

namespace CsatRelay

/-! ## JavaScript values -/

/-- White space and line terminators removed by `String.prototype.trim`. -/
def isJsSpace (c : Char) : Bool :=
  let n := c.toNat
  n == 9 || n == 10 || n == 11 || n == 12 || n == 13 || n == 32 || n == 160 ||
  n == 5760 || (8192 ≤ n && n ≤ 8202) || n == 8232 || n == 8233 || n == 8239 ||
  n == 8287 || n == 12288 || n == 65279

/-- `String.prototype.trim` on a list of characters. -/
def trimChars (cs : List Char) : List Char :=
  ((cs.dropWhile isJsSpace).reverse.dropWhile isJsSpace).reverse

/-- `s.trim()`. -/
def jsTrim (s : String) : String := String.mk (trimChars s.data)

/-- A value returned by `Range.getValue()` (number, text, boolean or date; an empty cell
is the empty text), or `null`. -/
inductive Cell where
  | null : Cell
  | num (q : ℚ) : Cell
  | str (s : String) : Cell
  | bool (b : Bool) : Cell
  | date (ms : Int) : Cell
  deriving DecidableEq

/-- The result of the coercion `Number(..)`. -/
inductive JsNumber where
  | nan : JsNumber
  | negInf : JsNumber
  | posInf : JsNumber
  | fin (q : ℚ) : JsNumber
  deriving DecidableEq

/-- Library functions used by the script whose definition is not part of it. -/
structure JsBuiltins where
  /-- `String.prototype.toLowerCase`. -/
  toLowerCase : String → String
  /-- `Number.prototype.toString`. -/
  numberToString : ℚ → String
  /-- `Date.prototype.toString`. -/
  dateToString : Int → String
  /-- `Number(s)` for a text `s` that is not blank. -/
  stringToNumber : String → JsNumber

/-- `String(v)`, also the conversion of `${v}` in a template literal. -/
def Cell.toStr (rt : JsBuiltins) : Cell → String
  | .null => "null"
  | .num q => rt.numberToString q
  | .str s => s
  | .bool true => "true"
  | .bool false => "false"
  | .date ms => rt.dateToString ms

/-- Truthiness of a value, as tested by `if (v)`, `!v` and `v && ..`. -/
def Cell.truthy : Cell → Bool
  | .null => false
  | .num q => decide (q ≠ 0)
  | .str s => decide (s ≠ "")
  | .bool b => b
  | .date _ => true

/-- `Number(v)`: blank text and `null` coerce to `0`. -/
def Cell.toNumber (rt : JsBuiltins) : Cell → JsNumber
  | .null => .fin 0
  | .num q => .fin q
  | .str s => if jsTrim s = "" then .fin 0 else rt.stringToNumber s
  | .bool true => .fin 1
  | .bool false => .fin 0
  | .date ms => .fin ms

/-- `isNaN(x)`. -/
def JsNumber.isNaN : JsNumber → Bool
  | .nan => true
  | _ => false

/-- `x <= bound` for a finite `bound`. -/
def JsNumber.le (x : JsNumber) (bound : ℚ) : Bool :=
  match x with
  | .nan => false
  | .negInf => true
  | .posInf => false
  | .fin q => decide (q ≤ bound)

/-! ## Configuration (lines 1-19) -/

def COL_CSAT_RATE : Nat := 3
def COL_NPS_RATE : Nat := 4
def COL_COMMENT : Nat := 6
def VERY_LOW_CSAT_THRESHOLD : ℚ := 2
def AHMED_NAME : String := "Ahmed Anwar"
def COL_TICKET_ID : Nat := 7
def COL_AGENT_NAME : Nat := 8

/-- The script properties; a missing property reads as the empty text. -/
structure Config where
  ZD_SUBDOMAIN : String
  ZD_EMAIL : String
  ZD_API_TOKEN : String
  /-- The property `AHMED_EMAIL` itself; the constant falls back to `ZD_EMAIL`. -/
  AHMED_EMAIL_PROP : String

/-- The constant `AHMED_EMAIL = SP.getProperty('AHMED_EMAIL') || ZD_EMAIL`. -/
def Config.AHMED_EMAIL (cfg : Config) : String :=
  if cfg.AHMED_EMAIL_PROP ≠ "" then cfg.AHMED_EMAIL_PROP else cfg.ZD_EMAIL

/-- The guard `!ZD_SUBDOMAIN || !ZD_EMAIL || !ZD_API_TOKEN`. -/
def Config.missing (cfg : Config) : Bool :=
  decide (cfg.ZD_SUBDOMAIN = "") || decide (cfg.ZD_EMAIL = "") || decide (cfg.ZD_API_TOKEN = "")

def configError : String := "Zendesk config missing in Script Properties"

/-! ## `normalizeTicketId_` (lines 29-47) -/

/-- The match of the regular expression `/\d+/`: the leftmost, longest run of digits. -/
def firstDigitRun (cs : List Char) : Option (List Char) :=
  match cs.dropWhile (fun c => !c.isDigit) with
  | [] => none
  | c :: rest => some ((c :: rest).takeWhile Char.isDigit)

/-- The integer written by a text made of decimal digits. -/
def digitsToNat (run : List Char) : Nat :=
  run.foldl (fun acc c => acc * 10 + (c.toNat - 48)) 0

/-- For `n ≥ 2^53`, the number of low bits that do not fit in the 53-bit significand of a
double (the bit length of `n` minus 53); `fuel` bounds the recursion. -/
def excessBits : Nat → Nat → Nat
  | 0, _ => 0
  | fuel + 1, n => if n < 9007199254740992 then 0 else excessBits fuel (n / 2) + 1

/-- The Number value of a natural number: the nearest IEEE 754 double, ties to even.
Integers up to `2^53 = 9007199254740992` are exact.  Above, the low `e` bits are rounded
away; the result `rounded * 2^e`, with `2^52 ≤ rounded ≤ 2^53`, is `Infinity` when it
exceeds the largest double `(2^53 - 1) * 2^971`. -/
def doubleOfNat (n : Nat) : JsNumber :=
  if n ≤ 9007199254740992 then .fin n
  else
    let e := excessBits n n
    let m := n / 2 ^ e
    let r := n % 2 ^ e
    let half := 2 ^ (e - 1)
    let rounded := if half < r ∨ (r = half ∧ m % 2 = 1) then m + 1 else m
    if 972 ≤ e ∨ (e = 971 ∧ rounded = 9007199254740992) then .posInf
    else .fin ((rounded * 2 ^ e : Nat) : ℚ)

/-- `parseInt(run, 10)` for a text made of decimal digits: the Number value of the integer
it writes. -/
def parseInt10 (run : List Char) : JsNumber := doubleOfNat (digitsToNat run)

/-- `normalizeTicketId_(raw)`; `none` is `null`. -/
def normalizeTicketId_ (raw : Cell) : Option JsNumber :=
  if raw = .null ∨ raw = .str "" then none
  else match raw with
    | .num q => some (.fin (Rat.floor q))
    | .str s =>
      match firstDigitRun s.data with
      | some run => some (parseInt10 run)
      | none => none
    | _ => none

/-! ## Zendesk data -/

/-- A participant of the `users` side-load; a missing `name` or `email` is the empty text
(the script reads them as `user.name || ''`). -/
structure User where
  id : Int
  name : String
  email : String
  role : String
  deriving DecidableEq

/-- A ticket comment; `isPublic` is the field `public`. -/
structure Comment where
  author_id : Int
  isPublic : Bool
  body : String
  deriving DecidableEq

/-- An event of an audit. -/
structure Event where
  type : String
  field : String
  value : String
  deriving DecidableEq

/-- An audit; `author_id` may be absent. -/
structure Audit where
  author_id : Option Int
  events : List Event
  deriving DecidableEq

/-- The `ticket` object of `tickets/{id}.json`; `tags` is `none` unless it is an array. -/
structure Ticket where
  assignee_id : Option Int
  tags : Option (List String)
  deriving DecidableEq

/-! ## JavaScript objects used as maps -/

/-- An object with numeric keys: its properties in creation order. -/
abbrev JsObject (α : Type) := List (Int × α)

namespace JsObject

variable {α : Type}

/-- The read `o[k]`; `none` is `undefined`. -/
def get : JsObject α → Int → Option α
  | [], _ => none
  | (k1, v) :: rest, k => if k1 = k then some v else get rest k

/-- The write `o[k] = v`: an existing property keeps its position. -/
def set : JsObject α → Int → α → JsObject α
  | [], k, v => [(k, v)]
  | (k1, v1) :: rest, k, v => if k1 = k then (k, v) :: rest else (k1, v1) :: set rest k v

/-- A key that is an array index (`0 ≤ k < 2^32 - 1`). -/
def isArrayIndex (k : Int) : Bool := decide (0 ≤ k) && decide (k < 4294967295)

/-- `Object.keys(o)`: array indices ascending, then the other keys in creation order. -/
def keys (o : JsObject α) : List Int :=
  let ks := o.map Prod.fst
  (ks.filter isArrayIndex).insertionSort (fun a b => a ≤ b) ++
    ks.filter (fun k => !isArrayIndex k)

end JsObject

/-- `x || fallback` for a counter `x` that may be `undefined`. -/
def orElse (x : Option Nat) (fallback : Nat) : Nat :=
  match x with
  | some n => if n = 0 then fallback else n
  | none => fallback

/-- `Array.prototype.sort(cmp)`: a stable sort, `a` stays before `b` when `cmp(a, b) ≤ 0`. -/
def jsSort {α : Type} (cmp : α → α → Int) (l : List α) : List α :=
  l.insertionSort (fun a b => cmp a b ≤ 0)

/-! ## `getTicketTopAgentByReplies_` (lines 200-333) -/

/-- `userMap`, built by `users.forEach(u => userMap[u.id] = u)`. -/
def buildUserMap (users : List User) : JsObject User :=
  users.foldl (fun m u => m.set u.id u) []

/-- The two counters `publicCounts` and `totalCounts`. -/
structure Counts where
  publicCounts : JsObject Nat
  totalCounts : JsObject Nat

/-- The body of `comments.forEach` (lines 237-252). -/
def countComment (userMap : JsObject User) (st : Counts) (c : Comment) : Counts :=
  match userMap.get c.author_id with
  | none => st
  | some user =>
    if user.role = "end-user" then st
    else
      let total := st.totalCounts.set c.author_id (orElse (st.totalCounts.get c.author_id) 0 + 1)
      if c.isPublic then
        ⟨st.publicCounts.set c.author_id (orElse (st.publicCounts.get c.author_id) 0 + 1), total⟩
      else ⟨st.publicCounts, total⟩

/-- The counters after all comments. -/
def tally (userMap : JsObject User) (comments : List Comment) : Counts :=
  comments.foldl (countComment userMap) ⟨[], []⟩

/-- An element of `publicCandidates` or of `collaborators`. -/
structure Candidate where
  id : Int
  publicCount : Nat
  totalCount : Nat
  name : String
  email : String
  deriving DecidableEq

/-- The record built for a key of `publicCounts` (lines 254-264). -/
def publicCandidate (userMap : JsObject User) (counts : Counts) (id : Int) : Candidate :=
  { id := id
    publicCount := (counts.publicCounts.get id).getD 0
    totalCount := orElse (counts.totalCounts.get id) (orElse (counts.publicCounts.get id) 0)
    name := ((userMap.get id).map User.name).getD ""
    email := ((userMap.get id).map User.email).getD "" }

/-- The record built for a key of `totalCounts` (lines 299-308). -/
def collaboratorEntry (userMap : JsObject User) (counts : Counts) (id : Int) : Candidate :=
  { id := id
    totalCount := (counts.totalCounts.get id).getD 0
    publicCount := orElse (counts.publicCounts.get id) 0
    name := ((userMap.get id).map User.name).getD ""
    email := ((userMap.get id).map User.email).getD "" }

/-- The helper `isAhmed` (lines 272-278). -/
def isAhmed (rt : JsBuiltins) (ahmedEmail : String) (c : Candidate) : Bool :=
  let byEmail := decide (c.email ≠ "") && decide (ahmedEmail ≠ "") &&
    decide (rt.toLowerCase c.email = rt.toLowerCase ahmedEmail)
  let byName := decide (c.name ≠ "") && decide (AHMED_NAME ≠ "") &&
    decide (rt.toLowerCase (jsTrim c.name) = rt.toLowerCase (jsTrim AHMED_NAME))
  byEmail || byName

/-- The comparator of lines 281-286: public replies desc, then total activity desc. -/
def comparePublic (a b : Candidate) : Int :=
  if b.publicCount ≠ a.publicCount then (b.publicCount : Int) - a.publicCount
  else (b.totalCount : Int) - a.totalCount

/-- The comparator of lines 320-325: total comments desc, then public replies desc. -/
def compareTotal (a b : Candidate) : Int :=
  if b.totalCount ≠ a.totalCount then (b.totalCount : Int) - a.totalCount
  else (b.publicCount : Int) - a.publicCount

/-- The sorted array `publicCandidates` (lines 254-286). -/
def rankedPublicCandidates (comments : List Comment) (users : List User) : List Candidate :=
  let userMap := buildUserMap users
  let counts := tally userMap comments
  jsSort comparePublic (counts.publicCounts.keys.map (publicCandidate userMap counts))

/-- The sorted array `collaborators` (lines 299-325). -/
def rankedCollaborators (rt : JsBuiltins) (ahmedEmail : String) (comments : List Comment)
    (users : List User) : List Candidate :=
  let userMap := buildUserMap users
  let counts := tally userMap comments
  jsSort compareTotal
    ((counts.totalCounts.keys.map (collaboratorEntry userMap counts)).filter
      (fun c => !isAhmed rt ahmedEmail c))

/-- Lines 229-333 of `getTicketTopAgentByReplies_`: the decision on the parsed response.
The two `none` branches read element `0` of a non-empty array and are never taken. -/
def topAgentFromComments (rt : JsBuiltins) (ahmedEmail : String) (comments : List Comment)
    (users : List User) : String :=
  let ranked := rankedPublicCandidates comments users
  if ranked.length = 0 then ""
  else match ranked.head? with
    | none => ""
    | some top =>
      if !isAhmed rt ahmedEmail top then top.name
      else
        let collaborators := rankedCollaborators rt ahmedEmail comments users
        if collaborators.length = 0 then top.name
        else match collaborators.head? with
          | none => ""
          | some collaborator => collaborator.name

/-! ## The Zendesk API as seen by the script -/

/-- A response of `UrlFetchApp.fetch`: its status code and its parsed body. -/
structure HttpResponse (α : Type) where
  code : Nat
  data : α

/-- Body of `tickets/{id}/comments.json?include=users`; a missing array is `[]`. -/
structure CommentsData where
  comments : List Comment
  users : List User

/-- Body of `tickets/{id}/audits.json?include=users`; a missing array is `[]`. -/
structure AuditsData where
  audits : List Audit
  users : List User

/-- Body of `tickets/{id}.json`. -/
structure TicketData where
  ticket : Option Ticket

/-- Body of `users/{id}.json`. -/
structure UserData where
  user : Option User

/-- The `comment` object of an update. -/
structure NoteComment where
  isPublic : Bool
  body : String
  deriving DecidableEq

/-- The object `ticketData` sent by the update; `none` is an absent field. -/
structure TicketUpdate where
  comment : NoteComment
  status : Option String
  tags : Option (List String)
  deriving DecidableEq

/-- A request issued through `UrlFetchApp.fetch`. -/
inductive Request where
  | getComments (ticketId : JsNumber) : Request
  | getAudits (ticketId : JsNumber) : Request
  | getTicket (ticketId : JsNumber) : Request
  | getUser (userId : Int) : Request
  | putTicket (ticketId : JsNumber) (ticketData : TicketUpdate) : Request
  deriving DecidableEq

/-- What Zendesk answers to each read request. -/
structure ZendeskApi where
  comments : JsNumber → HttpResponse CommentsData
  audits : JsNumber → HttpResponse AuditsData
  ticket : JsNumber → HttpResponse TicketData
  user : Int → HttpResponse UserData

/-- The value returned (or the error thrown) together with the requests issued. -/
abbrev Outcome := Except String String × List Request

/-- `getTicketTopAgentByReplies_(ticketId)` (lines 200-333). -/
def getTicketTopAgentByReplies_ (rt : JsBuiltins) (cfg : Config) (api : ZendeskApi)
    (ticketId : JsNumber) : Outcome :=
  if cfg.missing then (.error configError, [])
  else
    let resp := api.comments ticketId
    if resp.code ≠ 200 then (.ok "", [.getComments ticketId])
    else
      (.ok (topAgentFromComments rt cfg.AHMED_EMAIL resp.data.comments resp.data.users),
        [.getComments ticketId])

/-! ## `getTicketSolverName_` (lines 343-408) -/

/-- Truthiness of an id that may be `null`. -/
def idTruthy : Option Int → Bool
  | some id => decide (id ≠ 0)
  | none => false

/-- The predicate of `events.find` (lines 380-384). -/
def isSolvedChange (ev : Event) : Bool :=
  decide (ev.type = "Change") && decide (ev.field = "status") &&
    (decide (ev.value = "solved") || decide (ev.value = "closed"))

/-- The body of `audits.forEach` (lines 378-388), on the variable `solverId`. -/
def scanAudit (solverId : Option Int) (audit : Audit) : Option Int :=
  let statusChange := audit.events.find? isSolvedChange
  if statusChange.isSome && idTruthy audit.author_id then audit.author_id else solverId

/-- The value of `solverId` after the loop. -/
def findSolverId (audits : List Audit) : Option Int :=
  audits.foldl scanAudit none

/-- `(userData.user && userData.user.name) ? userData.user.name : ''`. -/
def userDataName (d : UserData) : String :=
  match d.user with
  | some u => u.name
  | none => ""

/-- `getTicketSolverName_(ticketId)`. -/
def getTicketSolverName_ (cfg : Config) (api : ZendeskApi) (ticketId : JsNumber) : Outcome :=
  if cfg.missing then (.error configError, [])
  else
    let resp := api.audits ticketId
    if resp.code ≠ 200 then (.ok "", [.getAudits ticketId])
    else
      let userMap := buildUserMap resp.data.users
      let solverId := findSolverId resp.data.audits
      if !idTruthy solverId then (.ok "", [.getAudits ticketId])
      else match solverId with
        | none => (.ok "", [.getAudits ticketId])
        | some id =>
          match userMap.get id with
          | some u => (.ok u.name, [.getAudits ticketId])
          | none =>
            let userResp := api.user id
            if userResp.code ≠ 200 then (.ok "", [.getAudits ticketId, .getUser id])
            else (.ok (userDataName userResp.data), [.getAudits ticketId, .getUser id])

/-! ## `getTicketAssigneeName_` (lines 418-465) -/

/-- `getTicketAssigneeName_(ticketId)`. -/
def getTicketAssigneeName_ (cfg : Config) (api : ZendeskApi) (ticketId : JsNumber) : Outcome :=
  if cfg.missing then (.error configError, [])
  else
    let resp := api.ticket ticketId
    if resp.code ≠ 200 then (.ok "", [.getTicket ticketId])
    else match resp.data.ticket with
      | none => (.ok "", [.getTicket ticketId])
      | some ticket =>
        if !idTruthy ticket.assignee_id then (.ok "", [.getTicket ticketId])
        else match ticket.assignee_id with
          | none => (.ok "", [.getTicket ticketId])
          | some assigneeId =>
            let userResp := api.user assigneeId
            if userResp.code ≠ 200 then (.ok "", [.getTicket ticketId, .getUser assigneeId])
            else (.ok (userDataName userResp.data), [.getTicket ticketId, .getUser assigneeId])

/-! ## `getTicketAgentForCSAT_` (lines 160-184) -/

/-- `getTicketAgentForCSAT_(ticketId)`: the three tiers, in order. -/
def getTicketAgentForCSAT_ (rt : JsBuiltins) (cfg : Config) (api : ZendeskApi)
    (ticketId : JsNumber) : Outcome :=
  match getTicketTopAgentByReplies_ rt cfg api ticketId with
  | (.error e, reqs1) => (.error e, reqs1)
  | (.ok topReplier, reqs1) =>
    if topReplier ≠ "" then (.ok topReplier, reqs1)
    else match getTicketSolverName_ cfg api ticketId with
      | (.error e, reqs2) => (.error e, reqs1 ++ reqs2)
      | (.ok solver, reqs2) =>
        if solver ≠ "" then (.ok solver, reqs1 ++ reqs2)
        else match getTicketAssigneeName_ cfg api ticketId with
          | (.error e, reqs3) => (.error e, reqs1 ++ reqs2 ++ reqs3)
          | (.ok assignee, reqs3) =>
            if assignee ≠ "" then (.ok assignee, reqs1 ++ reqs2 ++ reqs3)
            else (.ok "", reqs1 ++ reqs2 ++ reqs3)

/-! ## `postCSATInternalNoteToZendesk_` (lines 471-583) -/

/-- The first lines of both notes (lines 491-497 and 504-510). -/
def noteHeader (rt : JsBuiltins) (csatRate npsRate comment : Cell) : String :=
  "📊 نتائج استبيان العميل وصلت:\n\nمستوى رضا العميل (من الى 5): " ++ csatRate.toStr rt ++
  "\nمستوى ترشيح العميل (من 1 الى 10): " ++ npsRate.toStr rt ++
  "\n\n💬 تعليق العميل:\n\"" ++ comment.toStr rt ++ "\"\n\n"

/-- The text `noteBody` (lines 487-514). -/
def noteBody (rt : JsBuiltins) (isVeryLow : Bool) (csatRate npsRate comment : Cell) : String :=
  if isVeryLow then
    noteHeader rt csatRate npsRate comment ++
    "🟡 تم تحويل هذه التذكرة إلى وضع الانتظار (On-hold)\nبسبب انخفاض التقييم ووجود تعليق من العميل.\n" ++
    "الرجاء مراجعة ملاحظات العميل والتواصل معه لمعالجة السبب ثم إغلاق التذكرة بعد المتابعة."
  else
    noteHeader rt csatRate npsRate comment ++
    "ℹ️ هذه الملاحظة لإطلاعك على تقييم العميل فقط.\n" ++
    "لا يلزم اتخاذ إجراء إلا إذا رأيت أن متابعة العميل مناسبة."

/-- `hasComment` (line 483). -/
def hasComment (rt : JsBuiltins) (comment : Cell) : Bool :=
  comment.truthy && decide (jsTrim (comment.toStr rt) ≠ "")

/-- `isVeryLow` (line 484). -/
def isVeryLow (rt : JsBuiltins) (csatRate comment : Cell) : Bool :=
  hasComment rt comment && !(csatRate.toNumber rt).isNaN &&
    (csatRate.toNumber rt).le VERY_LOW_CSAT_THRESHOLD

/-- The tags read back from the ticket (lines 529-547); `[]` when the read fails. -/
def existingTags (resp : HttpResponse TicketData) : List String :=
  if resp.code = 200 then
    match resp.data.ticket with
    | some ticket =>
      match ticket.tags with
      | some tags => tags
      | none => []
    | none => []
  else []

/-- Lines 552-554: `push` the tag unless `indexOf` finds it. -/
def addVeryLowTag (tags : List String) : List String :=
  if "csat_very_low" ∈ tags then tags else tags ++ ["csat_very_low"]

/-- The object `ticketData` (lines 517-556). -/
def buildTicketData (rt : JsBuiltins) (api : ZendeskApi) (ticketId : JsNumber)
    (csatRate npsRate comment : Cell) : TicketUpdate :=
  let veryLow := isVeryLow rt csatRate comment
  let note : NoteComment :=
    { isPublic := false, body := noteBody rt veryLow csatRate npsRate comment }
  if veryLow then
    { comment := note, status := some "hold",
      tags := some (addVeryLowTag (existingTags (api.ticket ticketId))) }
  else { comment := note, status := none, tags := none }

/-- `postCSATInternalNoteToZendesk_(ticketId, csatRate, npsRate, comment)`: the requests it
issues, the update last; the answer to the update is only logged. -/
def postCSATInternalNoteToZendesk_ (rt : JsBuiltins) (cfg : Config) (api : ZendeskApi)
    (ticketId : JsNumber) (csatRate npsRate comment : Cell) : Except String (List Request) :=
  if cfg.missing then .error configError
  else
    let ticketData := buildTicketData rt api ticketId csatRate npsRate comment
    if isVeryLow rt csatRate comment then
      .ok [.getTicket ticketId, .putTicket ticketId ticketData]
    else .ok [.putTicket ticketId ticketData]

/-! ## `backfillAgentsForExistingRows` (lines 106-146) -/

/-- The active sheet: its last row and the value of each cell (row, column; 1-based). -/
structure Sheet where
  lastRow : Nat
  cell : Nat → Nat → Cell

/-- `sheet.getRange(row, col).getValue()`. -/
def Sheet.getValue (sheet : Sheet) (row col : Nat) : Cell := sheet.cell row col

/-- `sheet.getRange(row, col).setValue(v)`. -/
def Sheet.setValue (sheet : Sheet) (row col : Nat) (v : Cell) : Sheet :=
  { sheet with cell := fun r c => if r = row ∧ c = col then v else sheet.cell r c }

/-- `!ticketId` for the result of `normalizeTicketId_`. -/
def ticketIdFalsy : Option JsNumber → Bool
  | none => true
  | some .nan => true
  | some (.fin q) => decide (q = 0)
  | some _ => false

/-- The sheet during a backfill, the rows for which `getTicketAgentForCSAT_` was called, and
the requests issued so far. -/
structure BackfillState where
  sheet : Sheet
  attributed : List Nat
  requests : List Request

/-- The body of the loop (lines 117-142) for `rowIndex`. -/
def backfillRow (rt : JsBuiltins) (cfg : Config) (api : ZendeskApi) (st : BackfillState)
    (rowIndex : Nat) : BackfillState :=
  let rawTicket := st.sheet.getValue rowIndex COL_TICKET_ID
  let ticketId := normalizeTicketId_ rawTicket
  let existingAgent := st.sheet.getValue rowIndex COL_AGENT_NAME
  if ticketIdFalsy ticketId then st
  else if existingAgent.truthy then st
  else match ticketId with
    | none => st
    | some id =>
      match getTicketAgentForCSAT_ rt cfg api id with
      | (.ok agentName, reqs) =>
        if agentName ≠ "" then
          { sheet := st.sheet.setValue rowIndex COL_AGENT_NAME (.str agentName)
            attributed := st.attributed ++ [rowIndex]
            requests := st.requests ++ reqs }
        else
          { st with attributed := st.attributed ++ [rowIndex], requests := st.requests ++ reqs }
      | (.error _, reqs) =>
        { st with attributed := st.attributed ++ [rowIndex], requests := st.requests ++ reqs }

/-- `backfillAgentsForExistingRows()` on the active sheet. -/
def backfillAgentsForExistingRows (rt : JsBuiltins) (cfg : Config) (api : ZendeskApi)
    (sheet : Sheet) : BackfillState :=
  if sheet.lastRow < 2 then ⟨sheet, [], []⟩
  else (List.range' 2 (sheet.lastRow - 1)).foldl (backfillRow rt cfg api) ⟨sheet, [], []⟩

/-! ## Notions used to state the properties -/

/-- The base-10 value of a text made of decimal digits. -/
def decimalValue (run : List Char) : Nat :=
  Nat.ofDigits 10 (run.reverse.map (fun c => c.toNat - 48))

/-- The participant lookup: the entry of `users` with the given id (the last one, should the
id occur twice). -/
def participant (users : List User) (id : Int) : Option User :=
  users.reverse.find? (fun u => decide (u.id = id))

/-- The display name of a participant, empty when the lookup has no such participant. -/
def participantName (users : List User) (id : Int) : String :=
  ((participant users id).map User.name).getD ""

/-- The e-mail address of a participant, empty when the lookup has no such participant. -/
def participantEmail (users : List User) (id : Int) : String :=
  ((participant users id).map User.email).getD ""

/-- A comment that counts: its author is in the lookup and is not an end-user. -/
def counted (users : List User) (c : Comment) : Bool :=
  match participant users c.author_id with
  | some u => decide (u.role ≠ "end-user")
  | none => false

/-- Number of counted public comments of a participant. -/
def publicCount (users : List User) (comments : List Comment) (id : Int) : Nat :=
  comments.countP (fun c => decide (c.author_id = id) && counted users c && c.isPublic)

/-- Number of counted comments (public or internal) of a participant. -/
def totalCount (users : List User) (comments : List Comment) (id : Int) : Nat :=
  comments.countP (fun c => decide (c.author_id = id) && counted users c)

/-- The participant is the designated owner, by e-mail or by name. -/
def isAhmedParticipant (rt : JsBuiltins) (ahmedEmail : String) (users : List User)
    (id : Int) : Bool :=
  isAhmed rt ahmedEmail
    { id := id, publicCount := 0, totalCount := 0,
      name := participantName users id, email := participantEmail users id }

/-- A comment written by an end-user of the lookup. -/
def byEndUser (users : List User) (c : Comment) : Bool :=
  match participant users c.author_id with
  | some u => decide (u.role = "end-user")
  | none => false

/-- The object `o` holds exactly the non-zero values of `f`. -/
def Holds (o : JsObject Nat) (f : Int → Nat) : Prop :=
  ∀ id, o.get id = if f id = 0 then none else some (f id)

/-- The first non-empty text of a list, empty when there is none. -/
def firstNonEmpty (results : List String) : String :=
  (results.find? (fun r => decide (r ≠ ""))).getD ""

/-- The audit contains a status change to "solved" or "closed". -/
def hasSolvedChange (a : Audit) : Bool := a.events.any isSolvedChange

/-- The last audit, in list order, with a status change to "solved" or "closed". -/
def lastSolvingAudit (audits : List Audit) : Option Audit :=
  (audits.filter hasSolvedChange).getLast?

/-- The last audit, in list order, with such a status change and a non-null, non-zero
author id. -/
def lastAuthoredSolvingAudit (audits : List Audit) : Option Audit :=
  (audits.filter (fun a => hasSolvedChange a && idTruthy a.author_id)).getLast?

/-! ## Sample data for concrete evaluation -/

/-- Lower-casing of the letters `A`-`Z`. -/
def asciiLower (s : String) : String := String.mk (s.data.map Char.toLower)

/-- A runtime for the examples: it agrees with JavaScript on ASCII text, on integers and on
texts of decimal digits, which is all the examples use. -/
def sampleRuntime : JsBuiltins where
  toLowerCase := asciiLower
  numberToString := fun q => toString q.num
  dateToString := fun ms => toString ms
  stringToNumber := fun s => if s.data.all Char.isDigit then parseInt10 s.data else .nan

/-- A complete configuration. -/
def sampleConfig : Config :=
  { ZD_SUBDOMAIN := "aleena", ZD_EMAIL := "ahmed@aleena.example", ZD_API_TOKEN := "token",
    AHMED_EMAIL_PROP := "" }

def sampleAhmed : User := ⟨1, "Ahmed Anwar", "ahmed@aleena.example", "admin"⟩
def sampleAgent : User := ⟨2, "Basma", "basma@aleena.example", "agent"⟩
def sampleSecondAgent : User := ⟨4, "Yara", "yara@aleena.example", "agent"⟩
def sampleCustomer : User := ⟨3, "Customer", "customer@mail.example", "end-user"⟩
def sampleUsers : List User := [sampleAhmed, sampleAgent, sampleCustomer, sampleSecondAgent]

/-- Ahmed has 5 public replies, the other agent 1 public and 2 internal ones. -/
def overrideComments : List Comment :=
  [⟨3, true, "help"⟩, ⟨1, true, "a"⟩, ⟨2, false, "n1"⟩, ⟨1, true, "b"⟩, ⟨2, true, "r"⟩,
   ⟨1, true, "c"⟩, ⟨1, true, "d"⟩, ⟨2, false, "n2"⟩, ⟨1, true, "e"⟩]

/-- Two agents reply in public (2 and 1 replies), Ahmed only leaves an internal note. -/
def publicComments : List Comment :=
  [⟨3, true, "help"⟩, ⟨2, true, "r1"⟩, ⟨1, false, "n"⟩, ⟨4, true, "r2"⟩, ⟨2, true, "r3"⟩]

def closedEvent : Event := ⟨"Change", "status", "closed"⟩
def solvedEvent : Event := ⟨"Change", "status", "solved"⟩
def commentEvent : Event := ⟨"Comment", "", ""⟩

/-- An agent without a display name. -/
def unnamedAgent : User := ⟨5, "", "agent5@aleena.example", "agent"⟩

/-- A ticket whose only agent comment is public and written by the unnamed agent; the ticket
was solved by agent 2 and is assigned to agent 4. -/
def unnamedApi : ZendeskApi where
  comments := fun _ => ⟨200, ⟨[⟨3, true, "help"⟩, ⟨5, true, "reply"⟩], [sampleCustomer, unnamedAgent]⟩⟩
  audits := fun _ => ⟨200, ⟨[⟨some 2, [commentEvent, solvedEvent]⟩], [sampleAgent]⟩⟩
  ticket := fun _ => ⟨200, ⟨some ⟨some 4, some ["billing"]⟩⟩⟩
  user := fun id => if id = 4 then ⟨200, ⟨some sampleSecondAgent⟩⟩ else ⟨404, ⟨none⟩⟩

/-- The same ticket with an empty audit trail. -/
def unnamedApiNoAudits : ZendeskApi :=
  { unnamedApi with audits := fun _ => ⟨200, ⟨[], []⟩⟩ }

/-- A ticket without public agent comments: closed by agent 2, then an audit without author
records a change to "solved". -/
def anonymousAuditApi : ZendeskApi where
  comments := fun _ => ⟨200, ⟨[⟨3, true, "help"⟩, ⟨2, false, "note"⟩], [sampleCustomer, sampleAgent]⟩⟩
  audits := fun _ => ⟨200, ⟨[⟨some 2, [closedEvent]⟩, ⟨none, [solvedEvent]⟩], [sampleAgent]⟩⟩
  ticket := fun _ => ⟨200, ⟨some ⟨some 4, none⟩⟩⟩
  user := fun id => if id = 4 then ⟨200, ⟨some sampleSecondAgent⟩⟩ else ⟨404, ⟨none⟩⟩

/-- A ticket without public agent comments, solved by the unnamed agent and assigned to
agent 4. -/
def unnamedSolverApi : ZendeskApi where
  comments := fun _ => ⟨200, ⟨[⟨3, true, "help"⟩], [sampleCustomer]⟩⟩
  audits := fun _ => ⟨200, ⟨[⟨some 5, [solvedEvent]⟩], [unnamedAgent]⟩⟩
  ticket := fun _ => ⟨200, ⟨some ⟨some 4, none⟩⟩⟩
  user := fun id => if id = 4 then ⟨200, ⟨some sampleSecondAgent⟩⟩ else ⟨404, ⟨none⟩⟩

/-- A ticket without public agent comments: closed by agent 2, then solved by agent 4. -/
def twoSolversApi : ZendeskApi where
  comments := fun _ => ⟨200, ⟨[⟨3, true, "help"⟩, ⟨2, false, "note"⟩], [sampleCustomer, sampleAgent]⟩⟩
  audits := fun _ =>
    ⟨200, ⟨[⟨some 2, [closedEvent]⟩, ⟨some 4, [commentEvent, solvedEvent]⟩, ⟨some 2, [commentEvent]⟩],
      [sampleAgent, sampleSecondAgent]⟩⟩
  ticket := fun _ => ⟨200, ⟨some ⟨some 2, none⟩⟩⟩
  user := fun _ => ⟨404, ⟨none⟩⟩

/-- A ticket without agent comments and without a solving audit, assigned to agent 4. -/
def assigneeOnlyApi : ZendeskApi where
  comments := fun _ => ⟨200, ⟨[⟨3, true, "help"⟩], [sampleCustomer]⟩⟩
  audits := fun _ => ⟨200, ⟨[⟨some 2, [commentEvent]⟩], [sampleAgent]⟩⟩
  ticket := fun _ => ⟨200, ⟨some ⟨some 4, none⟩⟩⟩
  user := fun id => if id = 4 then ⟨200, ⟨some sampleSecondAgent⟩⟩ else ⟨404, ⟨none⟩⟩

/-- A ticket that already carries two tags. -/
def taggedApi : ZendeskApi :=
  { assigneeOnlyApi with ticket := fun _ => ⟨200, ⟨some ⟨some 4, some ["vip", "billing"]⟩⟩⟩ }

/-- A sheet with a header and three answers: row 2 already names an agent, row 3 does not,
row 4 has no ticket number. -/
def sampleSheet : Sheet where
  lastRow := 4
  cell := fun r c =>
    if c = COL_TICKET_ID then
      (if r = 2 then .num 7 else if r = 3 then .str "Ticket #7" else .str "n/a")
    else if c = COL_AGENT_NAME then (if r = 2 then .str "Someone Else" else .str "")
    else .str ""

/-- The same ticket after a first update: it carries the tags submitted by that update. -/
def retaggedApi : ZendeskApi :=
  { assigneeOnlyApi with
    ticket := fun _ => ⟨200, ⟨some ⟨some 4, some ["vip", "billing", "csat_very_low"]⟩⟩⟩ }

/-- A sheet whose row 2 has a ticket number and the number 0 in the agent-name cell. -/
def zeroAgentSheet : Sheet where
  lastRow := 2
  cell := fun r c =>
    if c = COL_TICKET_ID then (if r = 2 then .num 7 else .str "")
    else if c = COL_AGENT_NAME then (if r = 2 then .num 0 else .str "")
    else .str ""

/-! # Properties -/

/-! ## C7: `normalizeTicketId_` -/

theorem dropWhile_head_false {α : Type} (p : α → Bool) :
    ∀ (l : List α) (c : α) (rest : List α), l.dropWhile p = c :: rest → p c = false
  | [], c, rest, h => by simp at h
  | a :: l, c, rest, h => by
    by_cases ha : p a = true
    · rw [List.dropWhile_cons_of_pos ha] at h
      exact dropWhile_head_false p l c rest h
    · rw [List.dropWhile_cons_of_neg ha] at h
      cases h
      simpa using ha

theorem digitsToNat_append (pre : List Char) (c : Char) :
    digitsToNat (pre ++ [c]) = digitsToNat pre * 10 + (c.toNat - 48) := by
  simp [digitsToNat, List.foldl_append]

theorem digitsToNat_eq_decimalValue (run : List Char) : digitsToNat run = decimalValue run := by
  induction run using List.reverseRecOn with
  | nil => simp [digitsToNat, decimalValue]
  | append_singleton pre c ih =>
    rw [digitsToNat_append, ih]
    simp [decimalValue, Nat.ofDigits_cons]
    ring

theorem firstDigitRun_none (cs : List Char) (h : ∀ c ∈ cs, c.isDigit = false) :
    firstDigitRun cs = none := by
  have : cs.dropWhile (fun c => !c.isDigit) = [] := by
    rw [List.dropWhile_eq_nil_iff]
    intro x hx
    simp [h x hx]
  simp [firstDigitRun, this]

theorem firstDigitRun_some (cs : List Char) (h : ∃ c ∈ cs, c.isDigit = true) :
    ∃ pre run post, cs = pre ++ run ++ post ∧ (∀ c ∈ pre, c.isDigit = false) ∧ run ≠ [] ∧
      (∀ c ∈ run, c.isDigit = true) ∧ (∀ c, post.head? = some c → c.isDigit = false) ∧
      firstDigitRun cs = some run := by
  obtain ⟨d, hd, hdig⟩ := h
  cases hdrop : cs.dropWhile (fun c => !c.isDigit) with
  | nil =>
    rw [List.dropWhile_eq_nil_iff] at hdrop
    have := hdrop d hd
    simp [hdig] at this
  | cons c rest =>
    have hc : c.isDigit = true := by
      have := dropWhile_head_false _ cs c rest hdrop
      simpa using this
    refine ⟨cs.takeWhile (fun c => !c.isDigit), (c :: rest).takeWhile Char.isDigit,
      (c :: rest).dropWhile Char.isDigit, ?_, ?_, ?_, ?_, ?_, ?_⟩
    · rw [List.append_assoc, List.takeWhile_append_dropWhile, ← hdrop,
        List.takeWhile_append_dropWhile]
    · intro x hx
      have := List.mem_takeWhile_imp hx
      simpa using this
    · simp [List.takeWhile_cons, hc]
    · intro x hx
      exact List.mem_takeWhile_imp hx
    · intro x hx
      cases hpost : (c :: rest).dropWhile Char.isDigit with
      | nil => simp [hpost] at hx
      | cons y ys =>
        rw [hpost] at hx
        simp at hx
        subst hx
        exact dropWhile_head_false _ _ _ _ hpost
    · simp [firstDigitRun, hdrop]

/-- C7, amended: `normalizeTicketId_` returns `null` for `null`, for the empty text and for a
text without a decimal digit; it returns `n` for a positive integer number `n`; and for a
text with a digit, which splits as `pre ++ run ++ post` with no digit in `pre`, a non-empty
`run` of digits and no digit right after it, it returns the double nearest to the base-10
value of `run`, which is that value itself whenever the value is at most `2^53`.  In
particular `"Ticket #220162"` gives `220162`. -/
theorem normalizeTicketId_spec :
    normalizeTicketId_ .null = none ∧
    normalizeTicketId_ (.str "") = none ∧
    (∀ s : String, (∀ c ∈ s.data, c.isDigit = false) → normalizeTicketId_ (.str s) = none) ∧
    (∀ n : ℕ, 0 < n → normalizeTicketId_ (.num n) = some (.fin n)) ∧
    (∀ s : String, (∃ c ∈ s.data, c.isDigit = true) →
      ∃ pre run post, s.data = pre ++ run ++ post ∧ (∀ c ∈ pre, c.isDigit = false) ∧
        run ≠ [] ∧ (∀ c ∈ run, c.isDigit = true) ∧
        (∀ c, post.head? = some c → c.isDigit = false) ∧
        normalizeTicketId_ (.str s) = some (doubleOfNat (decimalValue run)) ∧
        (decimalValue run ≤ 9007199254740992 →
          normalizeTicketId_ (.str s) = some (.fin (decimalValue run)))) ∧
    normalizeTicketId_ (.str "Ticket #220162") = some (.fin 220162) := by
  refine ⟨by decide, by decide, ?_, ?_, ?_, by decide⟩
  · intro s hs
    simp only [normalizeTicketId_]
    split
    · rfl
    · simp [firstDigitRun_none s.data hs]
  · intro n _
    simp [normalizeTicketId_, Rat.floor_def']
  · intro s hs
    obtain ⟨pre, run, post, h1, h2, h3, h4, h5, h6⟩ := firstDigitRun_some s.data hs
    have hne : ¬ (Cell.str s = Cell.null ∨ Cell.str s = Cell.str "") := by
      rintro (h | h)
      · cases h
      · injection h with h
        subst h
        obtain ⟨c, hc, _⟩ := hs
        simp at hc
    have hval : normalizeTicketId_ (.str s) = some (doubleOfNat (decimalValue run)) := by
      simp only [normalizeTicketId_, if_neg hne, h6, parseInt10, digitsToNat_eq_decimalValue]
    refine ⟨pre, run, post, h1, h2, h3, h4, h5, hval, ?_⟩
    intro hbound
    rw [hval, doubleOfNat, if_pos hbound]

/-- C7, amended, on `"Ticket #220162 (was 17)"`, which contains a digit. -/
theorem normalizeTicketId_spec_witness :
    (∃ c ∈ "Ticket #220162 (was 17)".data, c.isDigit = true) ∧
    normalizeTicketId_ (.str "Ticket #220162 (was 17)") = some (.fin 220162) ∧
    ∃ pre run post, "Ticket #220162 (was 17)".data = pre ++ run ++ post ∧
      (∀ c ∈ pre, c.isDigit = false) ∧ run ≠ [] ∧ (∀ c ∈ run, c.isDigit = true) ∧
      (∀ c, post.head? = some c → c.isDigit = false) ∧
      normalizeTicketId_ (.str "Ticket #220162 (was 17)") =
        some (doubleOfNat (decimalValue run)) ∧
      (decimalValue run ≤ 9007199254740992 →
        normalizeTicketId_ (.str "Ticket #220162 (was 17)") =
          some (.fin (decimalValue run))) :=
  ⟨by decide, by decide,
    normalizeTicketId_spec.2.2.2.2.1 "Ticket #220162 (was 17)" (by decide)⟩

/-- C7 as stated fails: the first run of digits of `"Ticket 9007199254740993"` writes the
integer 9007199254740993, which is above `2^53`, and `parseInt` returns the nearest double
9007199254740992. -/
theorem normalizeTicketId_counterexample :
    (∃ c ∈ "Ticket 9007199254740993".data, c.isDigit = true) ∧
    firstDigitRun "Ticket 9007199254740993".data = some "9007199254740993".data ∧
    decimalValue "9007199254740993".data = 9007199254740993 ∧
    normalizeTicketId_ (.str "Ticket 9007199254740993") = some (.fin 9007199254740992) ∧
    normalizeTicketId_ (.str "Ticket 9007199254740993") ≠ some (.fin 9007199254740993) :=
  ⟨by decide, by decide, by decide, by decide, by decide⟩

/-! ## Objects, counters and ranking -/

theorem JsObject.get_set {α : Type} (o : JsObject α) (k : Int) (v : α) (j : Int) :
    (o.set k v).get j = if k = j then some v else o.get j := by
  induction o with
  | nil => simp [JsObject.set, JsObject.get]
  | cons p rest ih =>
    obtain ⟨k1, v1⟩ := p
    by_cases h1 : k1 = k
    · subst h1
      by_cases h2 : k1 = j <;> simp [JsObject.set, JsObject.get, h2]
    · by_cases h2 : k1 = j
      · subst h2
        simp [JsObject.set, JsObject.get, h1, Ne.symm h1]
      · simp [JsObject.set, JsObject.get, h1, h2, ih]

theorem JsObject.mem_map_fst_iff {α : Type} (o : JsObject α) (k : Int) :
    k ∈ o.map Prod.fst ↔ (o.get k).isSome = true := by
  induction o with
  | nil => simp [JsObject.get]
  | cons p rest ih =>
    obtain ⟨k1, v1⟩ := p
    by_cases h : k1 = k
    · simp [JsObject.get, h]
    · simp only [List.map_cons, List.mem_cons, JsObject.get, if_neg h, ih]
      constructor
      · rintro (h1 | h1)
        · exact absurd h1.symm h
        · exact h1
      · exact fun h1 => Or.inr h1

theorem JsObject.mem_keys_iff {α : Type} (o : JsObject α) (k : Int) :
    k ∈ o.keys ↔ (o.get k).isSome = true := by
  rw [← JsObject.mem_map_fst_iff]
  unfold JsObject.keys
  rw [List.mem_append, (List.perm_insertionSort _ _).mem_iff, List.mem_filter, List.mem_filter]
  constructor
  · rintro (h | h) <;> exact h.1
  · intro h
    by_cases hk : JsObject.isArrayIndex k = true
    · exact Or.inl ⟨h, hk⟩
    · exact Or.inr ⟨h, by simpa using hk⟩

theorem buildUserMap_get (users : List User) (id : Int) :
    (buildUserMap users).get id = participant users id := by
  induction users using List.reverseRecOn with
  | nil => simp [buildUserMap, participant, JsObject.get]
  | append_singleton pre u ih =>
    have hfold : buildUserMap (pre ++ [u]) = (buildUserMap pre).set u.id u := by
      simp [buildUserMap, List.foldl_append]
    rw [hfold, JsObject.get_set, ih]
    simp only [participant, List.reverse_append, List.reverse_cons, List.reverse_nil,
      List.nil_append, List.singleton_append, List.find?_cons]
    by_cases h : u.id = id <;> simp [h]

theorem Holds.bump {o : JsObject Nat} {f : Int → Nat} (h : Holds o f) (k : Int) :
    Holds (o.set k (orElse (o.get k) 0 + 1)) (fun id => if id = k then f id + 1 else f id) := by
  intro id
  rw [JsObject.get_set]
  by_cases hk : k = id
  · subst hk
    rw [h k]
    by_cases h0 : f k = 0 <;> simp [h0, orElse]
  · have hk2 : ¬ id = k := fun e => hk e.symm
    simp only [hk, hk2, if_false]
    exact h id

theorem Holds.congr {o : JsObject Nat} {f g : Int → Nat} (h : Holds o f)
    (hfg : ∀ id, f id = g id) : Holds o g := by
  intro id
  rw [← hfg id]
  exact h id

theorem countComment_holds (users : List User) (st : Counts) (c : Comment)
    (fp ft : Int → Nat) (hp : Holds st.publicCounts fp) (ht : Holds st.totalCounts ft) :
    Holds (countComment (buildUserMap users) st c).publicCounts
        (fun id => fp id + publicCount users [c] id) ∧
    Holds (countComment (buildUserMap users) st c).totalCounts
        (fun id => ft id + totalCount users [c] id) := by
  unfold countComment
  rw [buildUserMap_get]
  cases hu : participant users c.author_id with
  | none =>
    constructor
    · exact hp.congr (fun id => by simp [publicCount, counted, hu, List.countP_cons])
    · exact ht.congr (fun id => by simp [totalCount, counted, hu, List.countP_cons])
  | some u =>
    by_cases hr : u.role = "end-user"
    · simp only [hr, if_true]
      constructor
      · exact hp.congr (fun id => by simp [publicCount, counted, hu, hr, List.countP_cons])
      · exact ht.congr (fun id => by simp [totalCount, counted, hu, hr, List.countP_cons])
    · simp only [hr, if_false]
      have htot : Holds (st.totalCounts.set c.author_id
          (orElse (st.totalCounts.get c.author_id) 0 + 1))
          (fun id => ft id + totalCount users [c] id) := by
        refine (ht.bump c.author_id).congr (fun id => ?_)
        by_cases hid : id = c.author_id
        · simp [totalCount, counted, hu, hr, List.countP_cons, hid]
        · have : ¬ c.author_id = id := fun e => hid e.symm
          simp [totalCount, counted, hu, hr, List.countP_cons, hid, this]
      by_cases hpub : c.isPublic = true
      · simp only [hpub, if_true]
        refine ⟨?_, htot⟩
        refine (hp.bump c.author_id).congr (fun id => ?_)
        by_cases hid : id = c.author_id
        · simp [publicCount, counted, hu, hr, List.countP_cons, hid, hpub]
        · have : ¬ c.author_id = id := fun e => hid e.symm
          simp [publicCount, counted, hu, hr, List.countP_cons, hid, this]
      · simp only [hpub]
        refine ⟨?_, htot⟩
        exact hp.congr (fun id => by simp [publicCount, counted, hu, hr, List.countP_cons, hpub])

theorem foldl_countComment_holds (users : List User) (comments : List Comment) :
    ∀ (st : Counts) (fp ft : Int → Nat), Holds st.publicCounts fp → Holds st.totalCounts ft →
      Holds (comments.foldl (countComment (buildUserMap users)) st).publicCounts
          (fun id => fp id + publicCount users comments id) ∧
      Holds (comments.foldl (countComment (buildUserMap users)) st).totalCounts
          (fun id => ft id + totalCount users comments id) := by
  induction comments with
  | nil =>
    intro st fp ft hp ht
    exact ⟨hp.congr (fun id => by simp [publicCount]), ht.congr (fun id => by simp [totalCount])⟩
  | cons c rest ih =>
    intro st fp ft hp ht
    obtain ⟨hp1, ht1⟩ := countComment_holds users st c fp ft hp ht
    obtain ⟨hp2, ht2⟩ := ih _ _ _ hp1 ht1
    simp only [List.foldl_cons]
    constructor
    · refine hp2.congr (fun id => ?_)
      simp only [publicCount, List.countP_cons, List.countP_nil]
      omega
    · refine ht2.congr (fun id => ?_)
      simp only [totalCount, List.countP_cons, List.countP_nil]
      omega

theorem tally_holds (users : List User) (comments : List Comment) :
    Holds (tally (buildUserMap users) comments).publicCounts (publicCount users comments) ∧
    Holds (tally (buildUserMap users) comments).totalCounts (totalCount users comments) := by
  have h0 : Holds ([] : JsObject Nat) (fun _ => 0) := fun id => by simp [JsObject.get]
  obtain ⟨hp, ht⟩ := foldl_countComment_holds users comments ⟨[], []⟩ _ _ h0 h0
  exact ⟨hp.congr (fun id => by simp), ht.congr (fun id => by simp)⟩

theorem publicCount_le_totalCount (users : List User) (comments : List Comment) (id : Int) :
    publicCount users comments id ≤ totalCount users comments id := by
  unfold publicCount totalCount
  apply List.countP_mono_left
  intro c _ h
  simp only [Bool.and_eq_true] at h
  simpa using h.1

theorem head_insertionSort {α : Type} (r : α → α → Prop) [DecidableRel r]
    (htot : ∀ a b, r a b ∨ r b a) (htrans : ∀ a b c, r a b → r b c → r a c)
    (l : List α) (hne : l ≠ []) :
    ∃ top, (l.insertionSort r).head? = some top ∧ top ∈ l ∧ ∀ x ∈ l, r top x := by
  haveI : IsTotal α r := ⟨htot⟩
  haveI : IsTrans α r := ⟨htrans⟩
  have hsorted := List.sorted_insertionSort r l
  have hperm := List.perm_insertionSort r l
  cases hs : l.insertionSort r with
  | nil =>
    rw [hs] at hperm
    exact absurd (List.Perm.nil_eq hperm) (fun e => hne e.symm)
  | cons top rest =>
    rw [hs] at hsorted hperm
    refine ⟨top, rfl, hperm.mem_iff.mp (List.mem_cons_self _ _), ?_⟩
    intro x hx
    have hx2 : x ∈ top :: rest := hperm.mem_iff.mpr hx
    rcases List.mem_cons.mp hx2 with h | h
    · subst h
      rcases htot x x with h | h <;> exact h
    · exact List.rel_of_sorted_cons hsorted x h

theorem comparePublic_le_iff (a b : Candidate) :
    comparePublic a b ≤ 0 ↔
      b.publicCount < a.publicCount ∨
        (b.publicCount = a.publicCount ∧ b.totalCount ≤ a.totalCount) := by
  unfold comparePublic
  split <;> omega

theorem compareTotal_le_iff (a b : Candidate) :
    compareTotal a b ≤ 0 ↔
      b.totalCount < a.totalCount ∨
        (b.totalCount = a.totalCount ∧ b.publicCount ≤ a.publicCount) := by
  unfold compareTotal
  split <;> omega

theorem head_jsSort_comparePublic (l : List Candidate) (hne : l ≠ []) :
    ∃ top, (jsSort comparePublic l).head? = some top ∧ top ∈ l ∧
      ∀ x ∈ l, x.publicCount < top.publicCount ∨
        (x.publicCount = top.publicCount ∧ x.totalCount ≤ top.totalCount) := by
  obtain ⟨top, h1, h2, h3⟩ := head_insertionSort (fun a b => comparePublic a b ≤ 0)
    (fun a b => by simp only [comparePublic_le_iff]; omega)
    (fun a b c => by simp only [comparePublic_le_iff]; omega) l hne
  exact ⟨top, h1, h2, fun x hx => (comparePublic_le_iff top x).mp (h3 x hx)⟩

theorem head_jsSort_compareTotal (l : List Candidate) (hne : l ≠ []) :
    ∃ top, (jsSort compareTotal l).head? = some top ∧ top ∈ l ∧
      ∀ x ∈ l, x.totalCount < top.totalCount ∨
        (x.totalCount = top.totalCount ∧ x.publicCount ≤ top.publicCount) := by
  obtain ⟨top, h1, h2, h3⟩ := head_insertionSort (fun a b => compareTotal a b ≤ 0)
    (fun a b => by simp only [compareTotal_le_iff]; omega)
    (fun a b c => by simp only [compareTotal_le_iff]; omega) l hne
  exact ⟨top, h1, h2, fun x hx => (compareTotal_le_iff top x).mp (h3 x hx)⟩

theorem Holds.getD {o : JsObject Nat} {f : Int → Nat} (h : Holds o f) (id : Int) :
    (o.get id).getD 0 = f id := by
  rw [h id]
  by_cases h0 : f id = 0 <;> simp [h0]

theorem Holds.orElse_zero {o : JsObject Nat} {f : Int → Nat} (h : Holds o f) (id : Int) :
    orElse (o.get id) 0 = f id := by
  rw [h id]
  by_cases h0 : f id = 0 <;> simp [h0, orElse]

theorem Holds.mem_keys {o : JsObject Nat} {f : Int → Nat} (h : Holds o f) (id : Int) :
    id ∈ o.keys ↔ 1 ≤ f id := by
  rw [JsObject.mem_keys_iff, h id]
  by_cases h0 : f id = 0
  · simp [h0]
  · simp [h0]
    omega

theorem publicCandidate_tally (users : List User) (comments : List Comment) (id : Int) :
    publicCandidate (buildUserMap users) (tally (buildUserMap users) comments) id =
      { id := id, publicCount := publicCount users comments id,
        totalCount := totalCount users comments id,
        name := participantName users id, email := participantEmail users id } := by
  obtain ⟨hp, ht⟩ := tally_holds users comments
  have hle := publicCount_le_totalCount users comments id
  unfold publicCandidate
  rw [hp.getD, hp.orElse_zero, buildUserMap_get, ht id]
  have : orElse (if totalCount users comments id = 0 then none
      else some (totalCount users comments id)) (publicCount users comments id) =
      totalCount users comments id := by
    by_cases h0 : totalCount users comments id = 0
    · simp [h0, orElse]
      omega
    · simp [h0, orElse]
  rw [this]
  rfl

theorem collaboratorEntry_tally (users : List User) (comments : List Comment) (id : Int) :
    collaboratorEntry (buildUserMap users) (tally (buildUserMap users) comments) id =
      { id := id, publicCount := publicCount users comments id,
        totalCount := totalCount users comments id,
        name := participantName users id, email := participantEmail users id } := by
  obtain ⟨hp, ht⟩ := tally_holds users comments
  unfold collaboratorEntry
  rw [ht.getD, hp.orElse_zero, buildUserMap_get]
  rfl

theorem isAhmed_congr (rt : JsBuiltins) (ahmedEmail : String) (c d : Candidate)
    (hn : c.name = d.name) (he : c.email = d.email) :
    isAhmed rt ahmedEmail c = isAhmed rt ahmedEmail d := by
  simp only [isAhmed, hn, he]

theorem rankedPublicCandidates_head (users : List User) (comments : List Comment)
    (hpub : ∃ id, 1 ≤ publicCount users comments id) :
    ∃ p, (rankedPublicCandidates comments users).head? =
        some { id := p, publicCount := publicCount users comments p,
               totalCount := totalCount users comments p,
               name := participantName users p, email := participantEmail users p } ∧
      1 ≤ publicCount users comments p ∧
      ∀ q, 1 ≤ publicCount users comments q →
        publicCount users comments q < publicCount users comments p ∨
          (publicCount users comments q = publicCount users comments p ∧
            totalCount users comments q ≤ totalCount users comments p) := by
  obtain ⟨hp, -⟩ := tally_holds users comments
  obtain ⟨w, hw⟩ := hpub
  have hwmem : publicCandidate (buildUserMap users) (tally (buildUserMap users) comments) w ∈
      (tally (buildUserMap users) comments).publicCounts.keys.map
        (publicCandidate (buildUserMap users) (tally (buildUserMap users) comments)) :=
    List.mem_map.mpr ⟨w, (hp.mem_keys w).mpr hw, rfl⟩
  obtain ⟨top, h1, h2, h3⟩ := head_jsSort_comparePublic _ (List.ne_nil_of_mem hwmem)
  obtain ⟨p, hpk, hpe⟩ := List.mem_map.mp h2
  rw [publicCandidate_tally] at hpe
  refine ⟨p, ?_, (hp.mem_keys p).mp hpk, ?_⟩
  · rw [hpe]
    exact h1
  · intro q hq
    have hqmem : publicCandidate (buildUserMap users) (tally (buildUserMap users) comments) q ∈
        (tally (buildUserMap users) comments).publicCounts.keys.map
          (publicCandidate (buildUserMap users) (tally (buildUserMap users) comments)) :=
      List.mem_map.mpr ⟨q, (hp.mem_keys q).mpr hq, rfl⟩
    have := h3 _ hqmem
    rw [publicCandidate_tally, ← hpe] at this
    exact this

theorem rankedPublicCandidates_nil (users : List User) (comments : List Comment)
    (hnone : ∀ id, publicCount users comments id = 0) :
    rankedPublicCandidates comments users = [] := by
  obtain ⟨hp, -⟩ := tally_holds users comments
  have hk : (tally (buildUserMap users) comments).publicCounts.keys = [] := by
    apply List.eq_nil_iff_forall_not_mem.mpr
    intro id hid
    have := (hp.mem_keys id).mp hid
    rw [hnone id] at this
    omega
  simp [rankedPublicCandidates, hk, jsSort]

theorem rankedCollaborators_nil (rt : JsBuiltins) (ahmedEmail : String) (users : List User)
    (comments : List Comment)
    (hall : ∀ id, 1 ≤ totalCount users comments id →
      isAhmedParticipant rt ahmedEmail users id = true) :
    rankedCollaborators rt ahmedEmail comments users = [] := by
  obtain ⟨-, ht⟩ := tally_holds users comments
  have hf : ((tally (buildUserMap users) comments).totalCounts.keys.map
      (collaboratorEntry (buildUserMap users) (tally (buildUserMap users) comments))).filter
      (fun c => !isAhmed rt ahmedEmail c) = [] := by
    apply List.eq_nil_iff_forall_not_mem.mpr
    intro c hc
    obtain ⟨hc1, hc2⟩ := List.mem_filter.mp hc
    obtain ⟨id, hid, hce⟩ := List.mem_map.mp hc1
    rw [collaboratorEntry_tally] at hce
    have hA := hall id ((ht.mem_keys id).mp hid)
    have : isAhmed rt ahmedEmail c = true := by
      rw [← hA, ← hce]
      exact isAhmed_congr rt ahmedEmail _ _ rfl rfl
    simp [this] at hc2
  simp [rankedCollaborators, hf, jsSort]

theorem rankedCollaborators_head (rt : JsBuiltins) (ahmedEmail : String) (users : List User)
    (comments : List Comment)
    (hex : ∃ id, 1 ≤ totalCount users comments id ∧
      isAhmedParticipant rt ahmedEmail users id = false) :
    ∃ p, (rankedCollaborators rt ahmedEmail comments users).head? =
        some { id := p, publicCount := publicCount users comments p,
               totalCount := totalCount users comments p,
               name := participantName users p, email := participantEmail users p } ∧
      1 ≤ totalCount users comments p ∧ isAhmedParticipant rt ahmedEmail users p = false ∧
      ∀ q, 1 ≤ totalCount users comments q → isAhmedParticipant rt ahmedEmail users q = false →
        totalCount users comments q < totalCount users comments p ∨
          (totalCount users comments q = totalCount users comments p ∧
            publicCount users comments q ≤ publicCount users comments p) := by
  obtain ⟨-, ht⟩ := tally_holds users comments
  have hmem : ∀ q, 1 ≤ totalCount users comments q →
      isAhmedParticipant rt ahmedEmail users q = false →
      collaboratorEntry (buildUserMap users) (tally (buildUserMap users) comments) q ∈
        ((tally (buildUserMap users) comments).totalCounts.keys.map
          (collaboratorEntry (buildUserMap users) (tally (buildUserMap users) comments))).filter
          (fun c => !isAhmed rt ahmedEmail c) := by
    intro q hq hqA
    refine List.mem_filter.mpr ⟨List.mem_map.mpr ⟨q, (ht.mem_keys q).mpr hq, rfl⟩, ?_⟩
    rw [collaboratorEntry_tally]
    have : isAhmed rt ahmedEmail
        { id := q, publicCount := publicCount users comments q,
          totalCount := totalCount users comments q,
          name := participantName users q, email := participantEmail users q } = false := by
      rw [← hqA]
      exact isAhmed_congr rt ahmedEmail _ _ rfl rfl
    simp [this]
  obtain ⟨w, hw, hwA⟩ := hex
  obtain ⟨top, h1, h2, h3⟩ := head_jsSort_compareTotal _ (List.ne_nil_of_mem (hmem w hw hwA))
  obtain ⟨h2a, h2b⟩ := List.mem_filter.mp h2
  obtain ⟨p, hpk, hpe⟩ := List.mem_map.mp h2a
  rw [collaboratorEntry_tally] at hpe
  refine ⟨p, ?_, (ht.mem_keys p).mp hpk, ?_, ?_⟩
  · rw [hpe]
    exact h1
  · have : isAhmed rt ahmedEmail top = false := by simpa using h2b
    rw [← this, ← hpe]
    exact isAhmed_congr rt ahmedEmail _ _ rfl rfl
  · intro q hq hqA
    have := h3 _ (hmem q hq hqA)
    rw [collaboratorEntry_tally, ← hpe] at this
    exact this

/-! ## C1 and C2: `getTicketTopAgentByReplies_` -/

theorem countComment_byEndUser (users : List User) (st : Counts) (c : Comment)
    (h : byEndUser users c = true) : countComment (buildUserMap users) st c = st := by
  unfold countComment
  rw [buildUserMap_get]
  unfold byEndUser at h
  cases hu : participant users c.author_id with
  | none => rfl
  | some u =>
    rw [hu] at h
    have hr : u.role = "end-user" := by simpa using h
    simp [hr]

theorem topAgentFromComments_of_head (rt : JsBuiltins) (ahmedEmail : String)
    (comments : List Comment) (users : List User) (top : Candidate)
    (htop : (rankedPublicCandidates comments users).head? = some top) :
    topAgentFromComments rt ahmedEmail comments users =
      if !isAhmed rt ahmedEmail top then top.name
      else if (rankedCollaborators rt ahmedEmail comments users).length = 0 then top.name
      else match (rankedCollaborators rt ahmedEmail comments users).head? with
        | none => ""
        | some collaborator => collaborator.name := by
  have hlen : ¬ (rankedPublicCandidates comments users).length = 0 := by
    intro h0
    rw [List.length_eq_zero] at h0
    rw [h0] at htop
    simp at htop
  simp only [topAgentFromComments, if_neg hlen, htop]

/-- C2: counting only comments whose author is in the lookup and is not an end-user, if some
participant has a public comment and the highest-ranked candidate is not Ahmed, the result is
the name of a participant `p` with `publicCount p ≥ 1` such that every candidate `q` has
fewer public comments than `p`, or as many and at most as many comments in total; and a
comment of an end-user leaves both counters as they are. -/
theorem top_public_replier (rt : JsBuiltins) (ahmedEmail : String) (comments : List Comment)
    (users : List User)
    (hpub : ∃ id, 1 ≤ publicCount users comments id)
    (hnot : ∀ top, (rankedPublicCandidates comments users).head? = some top →
      isAhmed rt ahmedEmail top = false) :
    (∃ p, topAgentFromComments rt ahmedEmail comments users = participantName users p ∧
      1 ≤ publicCount users comments p ∧
      ∀ q, 1 ≤ publicCount users comments q →
        publicCount users comments q < publicCount users comments p ∨
          (publicCount users comments q = publicCount users comments p ∧
            totalCount users comments q ≤ totalCount users comments p)) ∧
    (∀ (st : Counts) (c : Comment), byEndUser users c = true →
      countComment (buildUserMap users) st c = st) := by
  refine ⟨?_, fun st c h => countComment_byEndUser users st c h⟩
  obtain ⟨p, hhead, hp1, hmax⟩ := rankedPublicCandidates_head users comments hpub
  refine ⟨p, ?_, hp1, hmax⟩
  rw [topAgentFromComments_of_head rt ahmedEmail comments users _ hhead]
  simp [hnot _ hhead]

/-- C1: when the highest-ranked public replier `top` is Ahmed, the result is his name if every
participant with a counted comment (public or internal) is Ahmed, and otherwise it is the
name of a non-Ahmed participant `p` whose pair (totalCount, publicCount) is lexicographically
maximal among the non-Ahmed participants with a counted comment, however many public replies
Ahmed has. -/
theorem ahmed_override (rt : JsBuiltins) (ahmedEmail : String) (comments : List Comment)
    (users : List User) (top : Candidate)
    (htop : (rankedPublicCandidates comments users).head? = some top)
    (hA : isAhmed rt ahmedEmail top = true) :
    ((∀ id, 1 ≤ totalCount users comments id →
        isAhmedParticipant rt ahmedEmail users id = true) →
      topAgentFromComments rt ahmedEmail comments users = top.name) ∧
    ((∃ id, 1 ≤ totalCount users comments id ∧
        isAhmedParticipant rt ahmedEmail users id = false) →
      ∃ p, 1 ≤ totalCount users comments p ∧
        isAhmedParticipant rt ahmedEmail users p = false ∧
        topAgentFromComments rt ahmedEmail comments users = participantName users p ∧
        ∀ q, 1 ≤ totalCount users comments q →
          isAhmedParticipant rt ahmedEmail users q = false →
          totalCount users comments q < totalCount users comments p ∨
            (totalCount users comments q = totalCount users comments p ∧
              publicCount users comments q ≤ publicCount users comments p)) := by
  have hres := topAgentFromComments_of_head rt ahmedEmail comments users top htop
  simp only [hA, Bool.not_true, Bool.false_eq_true, if_false] at hres
  constructor
  · intro hall
    rw [hres, rankedCollaborators_nil rt ahmedEmail users comments hall]
    simp
  · intro hex
    obtain ⟨p, hhead, hp1, hp2, hmax⟩ := rankedCollaborators_head rt ahmedEmail users comments hex
    refine ⟨p, hp1, hp2, ?_, hmax⟩
    have hlen : ¬ (rankedCollaborators rt ahmedEmail comments users).length = 0 := by
      intro h0
      rw [List.length_eq_zero] at h0
      rw [h0] at hhead
      simp at hhead
    rw [hres, if_neg hlen, hhead]

/-- C1 on the sample ticket: Ahmed has 5 public replies, the other agent 1 public and 2
internal ones, and the other agent is returned. -/
theorem ahmed_override_witness :
    (rankedPublicCandidates overrideComments sampleUsers).head? =
      some ⟨1, 5, 5, "Ahmed Anwar", "ahmed@aleena.example"⟩ ∧
    isAhmed sampleRuntime "ahmed@aleena.example"
      ⟨1, 5, 5, "Ahmed Anwar", "ahmed@aleena.example"⟩ = true ∧
    topAgentFromComments sampleRuntime "ahmed@aleena.example" overrideComments sampleUsers =
      "Basma" ∧
    ∃ p, 1 ≤ totalCount sampleUsers overrideComments p ∧
      isAhmedParticipant sampleRuntime "ahmed@aleena.example" sampleUsers p = false ∧
      topAgentFromComments sampleRuntime "ahmed@aleena.example" overrideComments sampleUsers =
        participantName sampleUsers p ∧
      ∀ q, 1 ≤ totalCount sampleUsers overrideComments q →
        isAhmedParticipant sampleRuntime "ahmed@aleena.example" sampleUsers q = false →
        totalCount sampleUsers overrideComments q < totalCount sampleUsers overrideComments p ∨
          (totalCount sampleUsers overrideComments q = totalCount sampleUsers overrideComments p ∧
            publicCount sampleUsers overrideComments q ≤
              publicCount sampleUsers overrideComments p) :=
  ⟨by decide, by decide, by decide,
    (ahmed_override sampleRuntime "ahmed@aleena.example" overrideComments sampleUsers
      ⟨1, 5, 5, "Ahmed Anwar", "ahmed@aleena.example"⟩ (by decide) (by decide)).2
      ⟨2, by decide, by decide⟩⟩

/-- C2 on a ticket where the top public replier is not Ahmed. -/
theorem top_public_replier_witness :
    (∃ id, 1 ≤ publicCount sampleUsers publicComments id) ∧
    topAgentFromComments sampleRuntime "ahmed@aleena.example" publicComments sampleUsers =
      "Basma" ∧
    ∃ p, topAgentFromComments sampleRuntime "ahmed@aleena.example" publicComments sampleUsers =
        participantName sampleUsers p ∧
      1 ≤ publicCount sampleUsers publicComments p ∧
      ∀ q, 1 ≤ publicCount sampleUsers publicComments q →
        publicCount sampleUsers publicComments q < publicCount sampleUsers publicComments p ∨
          (publicCount sampleUsers publicComments q = publicCount sampleUsers publicComments p ∧
            totalCount sampleUsers publicComments q ≤ totalCount sampleUsers publicComments p) :=
  ⟨⟨2, by decide⟩, by decide,
    (top_public_replier sampleRuntime "ahmed@aleena.example" publicComments sampleUsers
      ⟨2, by decide⟩ (by decide)).1⟩

/-! ## The three tiers: C9, C3 and C4 -/

theorem find_isSolvedChange_isSome (a : Audit) :
    (a.events.find? isSolvedChange).isSome = hasSolvedChange a := by
  unfold hasSolvedChange
  rw [Bool.eq_iff_iff, List.find?_isSome, List.any_eq_true]

theorem foldl_scanAudit (audits : List Audit) (init : Option Int) :
    audits.foldl scanAudit init =
      match lastAuthoredSolvingAudit audits with
      | some a => a.author_id
      | none => init := by
  induction audits using List.reverseRecOn with
  | nil => simp [lastAuthoredSolvingAudit]
  | append_singleton pre a ih =>
    rw [List.foldl_append, List.foldl_cons, List.foldl_nil, ih]
    unfold scanAudit lastAuthoredSolvingAudit
    simp only [find_isSolvedChange_isSome, List.filter_append]
    by_cases h : (hasSolvedChange a && idTruthy a.author_id) = true
    · simp [h, List.filter_cons]
    · simp [h, List.filter_cons]

theorem findSolverId_eq (audits : List Audit) :
    findSolverId audits = (lastAuthoredSolvingAudit audits).bind Audit.author_id := by
  unfold findSolverId
  rw [foldl_scanAudit]
  cases lastAuthoredSolvingAudit audits <;> rfl

theorem lastAuthoredSolvingAudit_truthy (audits : List Audit) (a : Audit)
    (h : lastAuthoredSolvingAudit audits = some a) :
    a ∈ audits ∧ hasSolvedChange a = true ∧ idTruthy a.author_id = true := by
  unfold lastAuthoredSolvingAudit at h
  have hm := List.mem_of_getLast?_eq_some h
  rw [List.mem_filter] at hm
  simpa using hm


theorem participant_mem (users : List User) (id : Int) (u : User)
    (h : participant users id = some u) : u ∈ users := by
  unfold participant at h
  exact List.mem_reverse.mp (List.mem_of_find?_eq_some h)

theorem participant_of_totalCount (users : List User) (comments : List Comment) (id : Int)
    (h : 1 ≤ totalCount users comments id) : ∃ u, participant users id = some u := by
  unfold totalCount at h
  obtain ⟨c, -, hc⟩ := List.countP_pos_iff.mp h
  simp only [Bool.and_eq_true, decide_eq_true_eq] at hc
  obtain ⟨hid, hcount⟩ := hc
  unfold counted at hcount
  rw [hid] at hcount
  cases hu : participant users id with
  | none => simp [hu] at hcount
  | some u => exact ⟨u, rfl⟩

theorem publicCount_pos_of_comment (users : List User) (comments : List Comment) (c : Comment)
    (hc : c ∈ comments) (hpub : c.isPublic = true) (hcount : counted users c = true) :
    1 ≤ publicCount users comments c.author_id := by
  unfold publicCount
  exact List.countP_pos_iff.mpr ⟨c, hc, by simp [hpub, hcount]⟩

theorem publicCount_zero_of_no_public (users : List User) (comments : List Comment)
    (h : ∀ c ∈ comments, (c.isPublic && counted users c) = false) (id : Int) :
    publicCount users comments id = 0 := by
  unfold publicCount
  rw [List.countP_eq_zero]
  intro c hc
  have := h c hc
  rcases Bool.and_eq_false_iff.mp this with h1 | h1 <;> simp [h1]

theorem topAgentFromComments_no_public (rt : JsBuiltins) (ahmedEmail : String)
    (comments : List Comment) (users : List User)
    (h : ∀ c ∈ comments, (c.isPublic && counted users c) = false) :
    topAgentFromComments rt ahmedEmail comments users = "" := by
  have hnil := rankedPublicCandidates_nil users comments
    (publicCount_zero_of_no_public users comments h)
  simp [topAgentFromComments, hnil]

theorem topAgentFromComments_participant (rt : JsBuiltins) (ahmedEmail : String)
    (comments : List Comment) (users : List User)
    (hpub : ∃ id, 1 ≤ publicCount users comments id) :
    ∃ p, 1 ≤ totalCount users comments p ∧
      topAgentFromComments rt ahmedEmail comments users = participantName users p := by
  obtain ⟨p, hhead, hp1, -⟩ := rankedPublicCandidates_head users comments hpub
  have hres := topAgentFromComments_of_head rt ahmedEmail comments users _ hhead
  have hptot : 1 ≤ totalCount users comments p :=
    le_trans hp1 (publicCount_le_totalCount users comments p)
  by_cases hA : isAhmed rt ahmedEmail
      { id := p, publicCount := publicCount users comments p,
        totalCount := totalCount users comments p,
        name := participantName users p, email := participantEmail users p } = true
  · simp only [hA, Bool.not_true, Bool.false_eq_true, if_false] at hres
    by_cases hex : ∃ id, 1 ≤ totalCount users comments id ∧
        isAhmedParticipant rt ahmedEmail users id = false
    · obtain ⟨c, hchead, hc1, -, -⟩ := rankedCollaborators_head rt ahmedEmail users comments hex
      refine ⟨c, hc1, ?_⟩
      have hlen : ¬ (rankedCollaborators rt ahmedEmail comments users).length = 0 := by
        intro h0
        rw [List.length_eq_zero] at h0
        rw [h0] at hchead
        simp at hchead
      rw [hres, if_neg hlen, hchead]
    · have hall : ∀ id, 1 ≤ totalCount users comments id →
          isAhmedParticipant rt ahmedEmail users id = true := by
        intro id hid
        by_contra hne
        exact hex ⟨id, hid, by simpa using hne⟩
      refine ⟨p, hptot, ?_⟩
      rw [hres, rankedCollaborators_nil rt ahmedEmail users comments hall]
      simp
  · refine ⟨p, hptot, ?_⟩
    rw [hres]
    simp [hA]

theorem getTicketTopAgentByReplies_ok (rt : JsBuiltins) (cfg : Config) (api : ZendeskApi)
    (ticketId : JsNumber) (hcfg : cfg.missing = false) :
    getTicketTopAgentByReplies_ rt cfg api ticketId =
      (.ok (if (api.comments ticketId).code ≠ 200 then ""
        else topAgentFromComments rt cfg.AHMED_EMAIL (api.comments ticketId).data.comments
          (api.comments ticketId).data.users), [.getComments ticketId]) := by
  unfold getTicketTopAgentByReplies_
  by_cases h : (api.comments ticketId).code = 200 <;> simp [hcfg, h]

theorem getTicketSolverName_ok (cfg : Config) (api : ZendeskApi) (ticketId : JsNumber)
    (hcfg : cfg.missing = false) :
    ∃ r reqs, getTicketSolverName_ cfg api ticketId = (.ok r, reqs) := by
  unfold getTicketSolverName_
  simp only [hcfg, Bool.false_eq_true, if_false]
  repeat' split
  all_goals exact ⟨_, _, rfl⟩

theorem getTicketAssigneeName_ok (cfg : Config) (api : ZendeskApi) (ticketId : JsNumber)
    (hcfg : cfg.missing = false) :
    ∃ r reqs, getTicketAssigneeName_ cfg api ticketId = (.ok r, reqs) := by
  unfold getTicketAssigneeName_
  simp only [hcfg, Bool.false_eq_true, if_false]
  repeat' split
  all_goals exact ⟨_, _, rfl⟩

theorem getTicketAgentForCSAT_of_tiers (rt : JsBuiltins) (cfg : Config) (api : ZendeskApi)
    (ticketId : JsNumber) (r1 r2 r3 : String) (q1 q2 q3 : List Request)
    (h1 : getTicketTopAgentByReplies_ rt cfg api ticketId = (.ok r1, q1))
    (h2 : getTicketSolverName_ cfg api ticketId = (.ok r2, q2))
    (h3 : getTicketAssigneeName_ cfg api ticketId = (.ok r3, q3)) :
    getTicketAgentForCSAT_ rt cfg api ticketId =
      if r1 ≠ "" then (.ok r1, q1)
      else if r2 ≠ "" then (.ok r2, q1 ++ q2)
      else (.ok r3, q1 ++ q2 ++ q3) := by
  unfold getTicketAgentForCSAT_
  rw [h1]
  by_cases e1 : r1 = ""
  · simp only [e1, ne_eq, not_true_eq_false, if_false]
    rw [h2]
    by_cases e2 : r2 = ""
    · simp only [e2, ne_eq, not_true_eq_false, if_false]
      rw [h3]
      by_cases e3 : r3 = "" <;> simp [e3]
    · simp [e2]
  · simp [e1]

theorem getTicketSolverName_value (cfg : Config) (api : ZendeskApi) (ticketId : JsNumber)
    (hcfg : cfg.missing = false) (haud : (api.audits ticketId).code = 200) :
    (getTicketSolverName_ cfg api ticketId).1 =
      match findSolverId (api.audits ticketId).data.audits with
      | none => .ok ""
      | some id =>
        if id = 0 then .ok ""
        else match participant (api.audits ticketId).data.users id with
          | some u => .ok u.name
          | none =>
            .ok (if (api.user id).code ≠ 200 then "" else userDataName (api.user id).data) := by
  unfold getTicketSolverName_
  simp only [hcfg, Bool.false_eq_true, if_false, haud, ne_eq, not_true_eq_false,
    buildUserMap_get]
  cases hs : findSolverId (api.audits ticketId).data.audits with
  | none => simp [idTruthy]
  | some id =>
    by_cases h0 : id = 0
    · simp [idTruthy, h0]
    · simp only [idTruthy, h0, ne_eq, not_false_eq_true, decide_True, Bool.not_true,
        Bool.false_eq_true, if_false]
      cases participant (api.audits ticketId).data.users id with
      | some u => rfl
      | none =>
        by_cases hc : (api.user id).code = 200 <;> simp [hc]

theorem getTicketSolverName_no_change (cfg : Config) (api : ZendeskApi) (ticketId : JsNumber)
    (hcfg : cfg.missing = false)
    (hnone : ∀ a ∈ (api.audits ticketId).data.audits, hasSolvedChange a = false) :
    (getTicketSolverName_ cfg api ticketId).1 = .ok "" := by
  by_cases haud : (api.audits ticketId).code = 200
  · rw [getTicketSolverName_value cfg api ticketId hcfg haud, findSolverId_eq]
    cases hl : lastAuthoredSolvingAudit (api.audits ticketId).data.audits with
    | none => rfl
    | some a =>
      obtain ⟨hm, hc, -⟩ := lastAuthoredSolvingAudit_truthy _ a hl
      rw [hnone a hm] at hc
      cases hc
  · unfold getTicketSolverName_
    simp [hcfg, haud]

theorem getTicketAssigneeName_value (cfg : Config) (api : ZendeskApi) (ticketId : JsNumber)
    (hcfg : cfg.missing = false) :
    (∀ tk a u, (api.ticket ticketId).code = 200 → (api.ticket ticketId).data.ticket = some tk →
      tk.assignee_id = some a → a ≠ 0 → (api.user a).code = 200 →
      (api.user a).data.user = some u →
      (getTicketAssigneeName_ cfg api ticketId).1 = .ok u.name) ∧
    (∀ tk, (api.ticket ticketId).data.ticket = some tk → tk.assignee_id = none →
      (getTicketAssigneeName_ cfg api ticketId).1 = .ok "") := by
  constructor
  · intro tk a u hcode htk ha ha0 hucode hu
    unfold getTicketAssigneeName_
    simp [hcfg, hcode, htk, ha, ha0, idTruthy, hucode, userDataName, hu]
  · intro tk htk ha
    unfold getTicketAssigneeName_
    by_cases hcode : (api.ticket ticketId).code = 200 <;> simp [hcfg, hcode, htk, ha, idTruthy]

/-- C9: with the configuration present, each tier returns a value and the result of
`getTicketAgentForCSAT_` is the first non-empty one in the order top replier, solver,
assignee (the empty text when all three are empty).  In particular, with no public agent
comment and no audit with a change to solved or closed, the result is what the assignee tier
returns: the name of the ticket's assignee, and the empty text when the ticket has no
assignee. -/
theorem three_tier_fallback (rt : JsBuiltins) (cfg : Config) (api : ZendeskApi)
    (ticketId : JsNumber) (hcfg : cfg.missing = false) :
    (∃ r1 r2 r3,
      (getTicketTopAgentByReplies_ rt cfg api ticketId).1 = .ok r1 ∧
      (getTicketSolverName_ cfg api ticketId).1 = .ok r2 ∧
      (getTicketAssigneeName_ cfg api ticketId).1 = .ok r3 ∧
      (getTicketAgentForCSAT_ rt cfg api ticketId).1 = .ok (firstNonEmpty [r1, r2, r3])) ∧
    ((∀ c ∈ (api.comments ticketId).data.comments,
        (c.isPublic && counted (api.comments ticketId).data.users c) = false) →
      (∀ a ∈ (api.audits ticketId).data.audits, hasSolvedChange a = false) →
      (getTicketAgentForCSAT_ rt cfg api ticketId).1 =
          (getTicketAssigneeName_ cfg api ticketId).1 ∧
      (∀ tk a u, (api.ticket ticketId).code = 200 →
        (api.ticket ticketId).data.ticket = some tk → tk.assignee_id = some a → a ≠ 0 →
        (api.user a).code = 200 → (api.user a).data.user = some u →
        (getTicketAgentForCSAT_ rt cfg api ticketId).1 = .ok u.name) ∧
      (∀ tk, (api.ticket ticketId).data.ticket = some tk → tk.assignee_id = none →
        (getTicketAgentForCSAT_ rt cfg api ticketId).1 = .ok "")) := by
  have h1 := getTicketTopAgentByReplies_ok rt cfg api ticketId hcfg
  obtain ⟨r2, q2, h2⟩ := getTicketSolverName_ok cfg api ticketId hcfg
  obtain ⟨r3, q3, h3⟩ := getTicketAssigneeName_ok cfg api ticketId hcfg
  have hres := getTicketAgentForCSAT_of_tiers rt cfg api ticketId _ r2 r3 _ q2 q3 h1 h2 h3
  constructor
  · refine ⟨_, r2, r3, by rw [h1], by rw [h2], by rw [h3], ?_⟩
    rw [hres]
    generalize (if (api.comments ticketId).code ≠ 200 then ""
      else topAgentFromComments rt cfg.AHMED_EMAIL (api.comments ticketId).data.comments
        (api.comments ticketId).data.users) = r1
    by_cases e1 : r1 = ""
    · by_cases e2 : r2 = ""
      · by_cases e3 : r3 = "" <;> simp [firstNonEmpty, e1, e2, e3]
      · simp [firstNonEmpty, e1, e2]
    · simp [firstNonEmpty, e1]
  · intro hnopub hnosolve
    have e1 : (if (api.comments ticketId).code ≠ 200 then ""
        else topAgentFromComments rt cfg.AHMED_EMAIL (api.comments ticketId).data.comments
          (api.comments ticketId).data.users) = "" := by
      rw [topAgentFromComments_no_public rt _ _ _ hnopub]
      simp
    have e2 : r2 = "" := by
      have := getTicketSolverName_no_change cfg api ticketId hcfg hnosolve
      rw [h2] at this
      injection this
    have hfinal : (getTicketAgentForCSAT_ rt cfg api ticketId).1 =
        (getTicketAssigneeName_ cfg api ticketId).1 := by
      rw [hres, e1, e2, h3]
      simp
    obtain ⟨ha, hb⟩ := getTicketAssigneeName_value cfg api ticketId hcfg
    refine ⟨hfinal, ?_, ?_⟩
    · intro tk a u hc htk hta ha0 huc hu
      rw [hfinal]
      exact ha tk a u hc htk hta ha0 huc hu
    · intro tk htk hta
      rw [hfinal]
      exact hb tk htk hta

/-- C9 on a ticket without agent comments and without solving audit: the assignee is named. -/
theorem three_tier_fallback_witness :
    sampleConfig.missing = false ∧
    (getTicketAgentForCSAT_ sampleRuntime sampleConfig assigneeOnlyApi (.fin 7)).1 = .ok "Yara" ∧
    ∃ r1 r2 r3,
      (getTicketTopAgentByReplies_ sampleRuntime sampleConfig assigneeOnlyApi (.fin 7)).1 = .ok r1 ∧
      (getTicketSolverName_ sampleConfig assigneeOnlyApi (.fin 7)).1 = .ok r2 ∧
      (getTicketAssigneeName_ sampleConfig assigneeOnlyApi (.fin 7)).1 = .ok r3 ∧
      (getTicketAgentForCSAT_ sampleRuntime sampleConfig assigneeOnlyApi (.fin 7)).1 =
        .ok (firstNonEmpty [r1, r2, r3]) :=
  ⟨by decide, rfl, (three_tier_fallback sampleRuntime sampleConfig assigneeOnlyApi (.fin 7) (by decide)).1⟩

/-- C3, amended: when the comments request succeeds with at least one public comment of a
non-end-user participant and every participant of the lookup has a non-empty name, the
resolver issues the comments request only (the solver and assignee tiers are not consulted),
its result is the tier-1 result, and it is the same for every other state of the audit trail,
of the ticket and of the users. -/
theorem tier_ordering (rt : JsBuiltins) (cfg : Config) (api : ZendeskApi) (ticketId : JsNumber)
    (hcfg : cfg.missing = false) (hcode : (api.comments ticketId).code = 200)
    (hpub : ∃ c ∈ (api.comments ticketId).data.comments,
      c.isPublic = true ∧ counted (api.comments ticketId).data.users c = true)
    (hnamed : ∀ u ∈ (api.comments ticketId).data.users, u.name ≠ "") :
    getTicketAgentForCSAT_ rt cfg api ticketId = getTicketTopAgentByReplies_ rt cfg api ticketId ∧
    (getTicketAgentForCSAT_ rt cfg api ticketId).2 = [.getComments ticketId] ∧
    ∀ other : ZendeskApi, other.comments ticketId = api.comments ticketId →
      getTicketAgentForCSAT_ rt cfg other ticketId = getTicketAgentForCSAT_ rt cfg api ticketId := by
  obtain ⟨c, hc, hcp, hcc⟩ := hpub
  have hpos : ∃ id, 1 ≤ publicCount (api.comments ticketId).data.users
      (api.comments ticketId).data.comments id :=
    ⟨c.author_id, publicCount_pos_of_comment _ _ c hc hcp hcc⟩
  obtain ⟨p, hp, hres⟩ := topAgentFromComments_participant rt cfg.AHMED_EMAIL _ _ hpos
  obtain ⟨u, hu⟩ := participant_of_totalCount _ _ p hp
  have hne : topAgentFromComments rt cfg.AHMED_EMAIL (api.comments ticketId).data.comments
      (api.comments ticketId).data.users ≠ "" := by
    rw [hres]
    simp only [participantName, hu, Option.map_some', Option.getD_some]
    exact hnamed u (participant_mem _ _ _ hu)
  have key : ∀ other : ZendeskApi, other.comments ticketId = api.comments ticketId →
      getTicketAgentForCSAT_ rt cfg other ticketId =
        (.ok (topAgentFromComments rt cfg.AHMED_EMAIL (api.comments ticketId).data.comments
          (api.comments ticketId).data.users), [.getComments ticketId]) := by
    intro other hsame
    unfold getTicketAgentForCSAT_
    rw [getTicketTopAgentByReplies_ok rt cfg other ticketId hcfg, hsame]
    simp [hcode, hne]
  have h1 := getTicketTopAgentByReplies_ok rt cfg api ticketId hcfg
  simp only [hcode, ne_eq, not_true_eq_false, if_false] at h1
  refine ⟨?_, ?_, ?_⟩
  · rw [key api rfl, h1]
  · rw [key api rfl]
  · intro other hsame
    rw [key other hsame, key api rfl]

/-- C3, amended, on the sample ticket with Ahmed and a collaborator. -/
theorem tier_ordering_witness :
    sampleConfig.missing = false ∧
    getTicketAgentForCSAT_ sampleRuntime sampleConfig
        { unnamedApi with comments := fun _ => ⟨200, ⟨overrideComments, sampleUsers⟩⟩ } (.fin 7) =
      (.ok "Basma", [.getComments (.fin 7)]) ∧
    (getTicketAgentForCSAT_ sampleRuntime sampleConfig
        { unnamedApi with comments := fun _ => ⟨200, ⟨overrideComments, sampleUsers⟩⟩ } (.fin 7)).2 =
      [.getComments (.fin 7)] :=
  ⟨by decide, rfl,
    (tier_ordering sampleRuntime sampleConfig
      { unnamedApi with comments := fun _ => ⟨200, ⟨overrideComments, sampleUsers⟩⟩ } (.fin 7)
      (by decide) (by decide) (by decide) (by decide)).2.1⟩

/-- C3 as stated fails: the only agent comment is public but its author has no display name,
so tier 1 returns the empty text, the audits are requested, and the result follows the audit
trail ("Basma" with the solving audit, the assignee "Yara" without it). -/
theorem tier_ordering_counterexample :
    (∃ c ∈ (unnamedApi.comments (.fin 7)).data.comments,
      c.isPublic = true ∧ counted (unnamedApi.comments (.fin 7)).data.users c = true) ∧
    (unnamedApi.comments (.fin 7)).code = 200 ∧
    getTicketTopAgentByReplies_ sampleRuntime sampleConfig unnamedApi (.fin 7) =
      (.ok "", [.getComments (.fin 7)]) ∧
    getTicketAgentForCSAT_ sampleRuntime sampleConfig unnamedApi (.fin 7) =
      (.ok "Basma", [.getComments (.fin 7), .getAudits (.fin 7)]) ∧
    getTicketAgentForCSAT_ sampleRuntime sampleConfig unnamedApiNoAudits (.fin 7) =
      (.ok "Yara", [.getComments (.fin 7), .getAudits (.fin 7), .getTicket (.fin 7), .getUser 4]) :=
  ⟨by decide, by decide, rfl, rfl, rfl⟩

/-- C4, amended: for a ticket with no public agent comment (tier 1 returns the empty text)
whose audits request succeeds, the solver is the author of the last audit, in list order,
that contains a status change to solved or closed and carries a non-null, non-zero author
id.  When the participant lookup has that author the solver tier returns the name found
there, and the resolver returns it when it is non-empty; when the lookup lacks the author
the name comes from a direct user request; without such an audit the solver tier returns the
empty text; and of two such audits by `x` then `y` the solver is `y`. -/
theorem solver_fallback (rt : JsBuiltins) (cfg : Config) (api : ZendeskApi) (ticketId : JsNumber)
    (hcfg : cfg.missing = false)
    (hnopub : ∀ c ∈ (api.comments ticketId).data.comments,
      (c.isPublic && counted (api.comments ticketId).data.users c) = false)
    (haud : (api.audits ticketId).code = 200) :
    (getTicketTopAgentByReplies_ rt cfg api ticketId).1 = .ok "" ∧
    findSolverId (api.audits ticketId).data.audits =
      (lastAuthoredSolvingAudit (api.audits ticketId).data.audits).bind Audit.author_id ∧
    (∀ a id u, lastAuthoredSolvingAudit (api.audits ticketId).data.audits = some a →
      a.author_id = some id → participant (api.audits ticketId).data.users id = some u →
      (getTicketSolverName_ cfg api ticketId).1 = .ok u.name ∧
      (u.name ≠ "" → (getTicketAgentForCSAT_ rt cfg api ticketId).1 = .ok u.name)) ∧
    (∀ a id, lastAuthoredSolvingAudit (api.audits ticketId).data.audits = some a →
      a.author_id = some id → participant (api.audits ticketId).data.users id = none →
      (getTicketSolverName_ cfg api ticketId).1 =
        .ok (if (api.user id).code ≠ 200 then "" else userDataName (api.user id).data)) ∧
    (lastAuthoredSolvingAudit (api.audits ticketId).data.audits = none →
      (getTicketSolverName_ cfg api ticketId).1 = .ok "") ∧
    (∀ (x y : Int) (evx evy : List Event), x ≠ 0 → y ≠ 0 →
      (∃ e ∈ evx, isSolvedChange e = true) → (∃ e ∈ evy, isSolvedChange e = true) →
      findSolverId [⟨some x, evx⟩, ⟨some y, evy⟩] = some y) := by
  have h1 := getTicketTopAgentByReplies_ok rt cfg api ticketId hcfg
  have e1 : (if (api.comments ticketId).code ≠ 200 then ""
      else topAgentFromComments rt cfg.AHMED_EMAIL (api.comments ticketId).data.comments
        (api.comments ticketId).data.users) = "" := by
    rw [topAgentFromComments_no_public rt _ _ _ hnopub]
    simp
  rw [e1] at h1
  have hval := getTicketSolverName_value cfg api ticketId hcfg haud
  rw [findSolverId_eq] at hval
  refine ⟨by rw [h1], findSolverId_eq _, ?_, ?_, ?_, ?_⟩
  · intro a id u hl ha hu
    obtain ⟨-, -, htr⟩ := lastAuthoredSolvingAudit_truthy _ a hl
    have hid : id ≠ 0 := by
      rw [ha] at htr
      simpa [idTruthy] using htr
    have hsolver : (getTicketSolverName_ cfg api ticketId).1 = .ok u.name := by
      rw [hval, hl]
      simp [ha, hid, hu]
    refine ⟨hsolver, ?_⟩
    intro hname
    obtain ⟨r2, q2, h2⟩ := getTicketSolverName_ok cfg api ticketId hcfg
    obtain ⟨r3, q3, h3⟩ := getTicketAssigneeName_ok cfg api ticketId hcfg
    rw [h2] at hsolver
    have hr2 : r2 = u.name := by injection hsolver
    rw [getTicketAgentForCSAT_of_tiers rt cfg api ticketId _ r2 r3 _ q2 q3 h1 h2 h3, hr2]
    simp [hname]
  · intro a id hl ha hu
    obtain ⟨-, -, htr⟩ := lastAuthoredSolvingAudit_truthy _ a hl
    have hid : id ≠ 0 := by
      rw [ha] at htr
      simpa [idTruthy] using htr
    rw [hval, hl]
    simp [ha, hid, hu]
  · intro hl
    rw [hval, hl]
    rfl
  · intro x y evx evy hx hy hex hey
    rw [findSolverId_eq]
    have hcx : hasSolvedChange ⟨some x, evx⟩ = true := List.any_eq_true.mpr hex
    have hcy : hasSolvedChange ⟨some y, evy⟩ = true := List.any_eq_true.mpr hey
    simp [lastAuthoredSolvingAudit, List.filter_cons, hcx, hcy, idTruthy, hx, hy]

/-- C4, amended, on a ticket closed by agent 2 and then solved by agent 4. -/
theorem solver_fallback_witness :
    sampleConfig.missing = false ∧
    (twoSolversApi.audits (.fin 7)).code = 200 ∧
    lastAuthoredSolvingAudit (twoSolversApi.audits (.fin 7)).data.audits =
      some ⟨some 4, [commentEvent, solvedEvent]⟩ ∧
    (getTicketSolverName_ sampleConfig twoSolversApi (.fin 7)).1 = .ok "Yara" ∧
    (getTicketAgentForCSAT_ sampleRuntime sampleConfig twoSolversApi (.fin 7)).1 = .ok "Yara" :=
  ⟨by decide, by decide, by decide,
    ((solver_fallback sampleRuntime sampleConfig twoSolversApi (.fin 7) (by decide) (by decide)
      (by decide)).2.2.1 ⟨some 4, [commentEvent, solvedEvent]⟩ 4 sampleSecondAgent
      (by decide) rfl (by decide)).1,
    ((solver_fallback sampleRuntime sampleConfig twoSolversApi (.fin 7) (by decide) (by decide)
      (by decide)).2.2.1 ⟨some 4, [commentEvent, solvedEvent]⟩ 4 sampleSecondAgent
      (by decide) rfl (by decide)).2 (by decide)⟩

/-- C4 as stated fails.  On the first ticket the last audit with a status change to solved
has no author: the script skips it and the solver is the author of the earlier audit.  On
the second ticket the author of the last such audit is in the lookup without a name: the
solver tier returns the empty text and the resolver returns the assignee instead. -/
theorem solver_fallback_counterexample :
    ((∀ c ∈ (anonymousAuditApi.comments (.fin 7)).data.comments,
        (c.isPublic && counted (anonymousAuditApi.comments (.fin 7)).data.users c) = false) ∧
      lastSolvingAudit (anonymousAuditApi.audits (.fin 7)).data.audits = some ⟨none, [solvedEvent]⟩ ∧
      findSolverId (anonymousAuditApi.audits (.fin 7)).data.audits = some 2 ∧
      findSolverId (anonymousAuditApi.audits (.fin 7)).data.audits ≠
        (lastSolvingAudit (anonymousAuditApi.audits (.fin 7)).data.audits).bind Audit.author_id ∧
      getTicketAgentForCSAT_ sampleRuntime sampleConfig anonymousAuditApi (.fin 7) =
        (.ok "Basma", [.getComments (.fin 7), .getAudits (.fin 7)])) ∧
    ((∀ c ∈ (unnamedSolverApi.comments (.fin 7)).data.comments,
        (c.isPublic && counted (unnamedSolverApi.comments (.fin 7)).data.users c) = false) ∧
      lastSolvingAudit (unnamedSolverApi.audits (.fin 7)).data.audits = some ⟨some 5, [solvedEvent]⟩ ∧
      participant (unnamedSolverApi.audits (.fin 7)).data.users 5 = some unnamedAgent ∧
      getTicketSolverName_ sampleConfig unnamedSolverApi (.fin 7) = (.ok "", [.getAudits (.fin 7)]) ∧
      getTicketAgentForCSAT_ sampleRuntime sampleConfig unnamedSolverApi (.fin 7) =
        (.ok "Yara", [.getComments (.fin 7), .getAudits (.fin 7), .getTicket (.fin 7), .getUser 4])) :=
  ⟨⟨by decide, by decide, by decide, by decide, rfl⟩,
    ⟨by decide, by decide, by decide, rfl, rfl⟩⟩

/-! ## The internal note: C5, C6 and C10 -/

theorem hasComment_str (rt : JsBuiltins) (s : String) :
    hasComment rt (.str s) = decide (jsTrim s ≠ "") := by
  have hempty : jsTrim "" = "" := by decide
  by_cases h : s = ""
  · subst h
    simp [hasComment, Cell.truthy, hempty]
  · simp [hasComment, Cell.truthy, Cell.toStr, h]

theorem isVeryLow_num (rt : JsBuiltins) (q : ℚ) (comment : Cell) :
    isVeryLow rt (.num q) comment = (hasComment rt comment && decide (q ≤ 2)) := by
  simp [isVeryLow, Cell.toNumber, JsNumber.isNaN, JsNumber.le, VERY_LOW_CSAT_THRESHOLD]

theorem isVeryLow_num_iff (rt : JsBuiltins) (q : ℚ) (comment : Cell) :
    isVeryLow rt (.num q) comment = true ↔
      (comment.truthy = true ∧ jsTrim (comment.toStr rt) ≠ "" ∧ q ≤ 2) := by
  rw [isVeryLow_num]
  simp [hasComment, and_assoc]

theorem mem_addVeryLowTag (tags : List String) : "csat_very_low" ∈ addVeryLowTag tags := by
  unfold addVeryLowTag
  split
  · assumption
  · simp

theorem addVeryLowTag_of_mem (tags : List String) (h : "csat_very_low" ∈ tags) :
    addVeryLowTag tags = tags := by
  simp [addVeryLowTag, h]

theorem addVeryLowTag_of_not_mem (tags : List String) (h : "csat_very_low" ∉ tags) :
    addVeryLowTag tags = tags ++ ["csat_very_low"] := by
  simp [addVeryLowTag, h]

theorem existingTags_of_read (resp : HttpResponse TicketData) (ticket : Ticket)
    (tags : List String) (hcode : resp.code = 200) (hticket : resp.data.ticket = some ticket)
    (htags : ticket.tags = some tags) : existingTags resp = tags := by
  simp [existingTags, hcode, hticket, htags]

theorem buildTicketData_veryLow (rt : JsBuiltins) (api : ZendeskApi) (ticketId : JsNumber)
    (csatRate npsRate comment : Cell) (h : isVeryLow rt csatRate comment = true) :
    buildTicketData rt api ticketId csatRate npsRate comment =
      { comment := { isPublic := false, body := noteBody rt true csatRate npsRate comment },
        status := some "hold",
        tags := some (addVeryLowTag (existingTags (api.ticket ticketId))) } := by
  simp [buildTicketData, h]

theorem buildTicketData_not_veryLow (rt : JsBuiltins) (api : ZendeskApi) (ticketId : JsNumber)
    (csatRate npsRate comment : Cell) (h : isVeryLow rt csatRate comment = false) :
    buildTicketData rt api ticketId csatRate npsRate comment =
      { comment := { isPublic := false, body := noteBody rt false csatRate npsRate comment },
        status := none, tags := none } := by
  simp [buildTicketData, h]

/-- C5, amended: for a numeric `csatRate`, any `npsRate` and any comment cell, the update
sets status "hold" and carries a tag list containing "csat_very_low" exactly when the comment
is truthy (not `null`, not the empty text, not the number 0, not `FALSE`), its text
`String(comment)` is non-blank after trimming, and `csatRate ≤ 2`; otherwise the update
consists of the non-public note only, without status and without tags.  For a comment that
is a text the condition is that it is non-blank after trimming and `csatRate ≤ 2`, and a
`null` comment never holds.  In particular rate 1 with a blank comment and rate 5 with the
comment "great" do not hold. -/
theorem hold_decision (rt : JsBuiltins) (cfg : Config) (api : ZendeskApi) (ticketId : JsNumber)
    (q : ℚ) (npsRate comment : Cell) (hcfg : cfg.missing = false) :
    (postCSATInternalNoteToZendesk_ rt cfg api ticketId (.num q) npsRate comment =
      .ok (if comment.truthy = true ∧ jsTrim (comment.toStr rt) ≠ "" ∧ q ≤ 2 then
          [.getTicket ticketId,
            .putTicket ticketId (buildTicketData rt api ticketId (.num q) npsRate comment)]
        else [.putTicket ticketId (buildTicketData rt api ticketId (.num q) npsRate comment)])) ∧
    (buildTicketData rt api ticketId (.num q) npsRate comment).comment.isPublic = false ∧
    (((buildTicketData rt api ticketId (.num q) npsRate comment).status = some "hold" ∧
        ∃ tags, (buildTicketData rt api ticketId (.num q) npsRate comment).tags = some tags ∧
          "csat_very_low" ∈ tags) ↔
      (comment.truthy = true ∧ jsTrim (comment.toStr rt) ≠ "" ∧ q ≤ 2)) ∧
    (¬ (comment.truthy = true ∧ jsTrim (comment.toStr rt) ≠ "" ∧ q ≤ 2) →
      buildTicketData rt api ticketId (.num q) npsRate comment =
        { comment :=
            { isPublic := false, body := noteBody rt false (.num q) npsRate comment },
          status := none, tags := none }) ∧
    (∀ s : String, comment = .str s →
      ((comment.truthy = true ∧ jsTrim (comment.toStr rt) ≠ "" ∧ q ≤ 2) ↔
        (jsTrim s ≠ "" ∧ q ≤ 2))) ∧
    (comment = .null → ¬ (comment.truthy = true ∧ jsTrim (comment.toStr rt) ≠ "" ∧ q ≤ 2)) ∧
    (buildTicketData rt api ticketId (.num 1) npsRate (.str "")).status = none ∧
    (buildTicketData rt api ticketId (.num 5) npsRate (.str "great")).status = none := by
  have hblank : isVeryLow rt (.num 1) (.str "") = false := by
    rw [isVeryLow_num, hasComment_str]
    decide
  have hgreat : isVeryLow rt (.num 5) (.str "great") = false := by
    rw [isVeryLow_num, hasComment_str]
    norm_num
  have htext : ∀ s : String, comment = .str s →
      ((comment.truthy = true ∧ jsTrim (comment.toStr rt) ≠ "" ∧ q ≤ 2) ↔
        (jsTrim s ≠ "" ∧ q ≤ 2)) := by
    intro s hs
    subst hs
    have hempty : jsTrim "" = "" := by decide
    by_cases h : s = ""
    · subst h
      simp [Cell.truthy, Cell.toStr, hempty]
    · simp [Cell.truthy, Cell.toStr, h]
  have hnull : comment = .null →
      ¬ (comment.truthy = true ∧ jsTrim (comment.toStr rt) ≠ "" ∧ q ≤ 2) := by
    intro hc
    subst hc
    simp [Cell.truthy]
  by_cases h : comment.truthy = true ∧ jsTrim (comment.toStr rt) ≠ "" ∧ q ≤ 2
  · have hl : isVeryLow rt (.num q) comment = true := (isVeryLow_num_iff rt q comment).mpr h
    refine ⟨?_, ?_, ?_, ?_, htext, hnull, ?_, ?_⟩
    · simp only [postCSATInternalNoteToZendesk_, hcfg, hl, if_pos h]
      simp
    · rw [buildTicketData_veryLow _ _ _ _ _ _ hl]
    · rw [buildTicketData_veryLow _ _ _ _ _ _ hl]
      exact ⟨fun _ => h, fun _ => ⟨rfl, _, rfl, mem_addVeryLowTag _⟩⟩
    · exact fun hn => absurd h hn
    · rw [buildTicketData_not_veryLow _ _ _ _ _ _ hblank]
    · rw [buildTicketData_not_veryLow _ _ _ _ _ _ hgreat]
  · have hl : isVeryLow rt (.num q) comment = false := by
      by_contra hne
      exact h ((isVeryLow_num_iff rt q comment).mp (by simpa using hne))
    refine ⟨?_, ?_, ?_, ?_, htext, hnull, ?_, ?_⟩
    · simp only [postCSATInternalNoteToZendesk_, hcfg, hl, if_neg h]
      simp
    · rw [buildTicketData_not_veryLow _ _ _ _ _ _ hl]
    · rw [buildTicketData_not_veryLow _ _ _ _ _ _ hl]
      constructor
      · rintro ⟨hs, -⟩
        cases hs
      · exact fun hh => absurd hh h
    · exact fun _ => buildTicketData_not_veryLow _ _ _ _ _ _ hl
    · rw [buildTicketData_not_veryLow _ _ _ _ _ _ hblank]
    · rw [buildTicketData_not_veryLow _ _ _ _ _ _ hgreat]

/-- C5, amended, on rate 1 with the comment "bad service": the ticket is held and the tag is
appended to the tags read from the ticket. -/
theorem hold_decision_witness :
    sampleConfig.missing = false ∧
    postCSATInternalNoteToZendesk_ sampleRuntime sampleConfig taggedApi (.fin 7) (.num 1) (.num 3)
        (.str "bad service") =
      .ok [.getTicket (.fin 7),
        .putTicket (.fin 7) (buildTicketData sampleRuntime taggedApi (.fin 7) (.num 1) (.num 3)
          (.str "bad service"))] ∧
    (buildTicketData sampleRuntime taggedApi (.fin 7) (.num 1) (.num 3)
      (.str "bad service")).status = some "hold" ∧
    (buildTicketData sampleRuntime taggedApi (.fin 7) (.num 1) (.num 3)
      (.str "bad service")).tags = some ["vip", "billing", "csat_very_low"] :=
  ⟨by decide,
    (hold_decision sampleRuntime sampleConfig taggedApi (.fin 7) 1 (.num 3) (.str "bad service")
      (by decide)).1.trans (by norm_num [Cell.truthy, Cell.toStr]; decide),
    by rw [buildTicketData_veryLow _ _ _ _ _ _
      (by rw [isVeryLow_num, hasComment_str]; norm_num; decide)],
    by rw [buildTicketData_veryLow _ _ _ _ _ _
      (by rw [isVeryLow_num, hasComment_str]; norm_num; decide)]; decide⟩

/-- C5 as stated fails: with rate 1 and a comment cell holding `FALSE`, the text of the
comment, "false", is non-blank after trimming and the rate is at most 2, yet the update has
neither status nor tags, because `comment && ..` is falsy. -/
theorem hold_decision_counterexample :
    jsTrim (Cell.toStr sampleRuntime (.bool false)) ≠ "" ∧ (1 : ℚ) ≤ 2 ∧
    Cell.truthy (.bool false) = false ∧
    buildTicketData sampleRuntime taggedApi (.fin 7) (.num 1) (.num 3) (.bool false) =
      { comment :=
          { isPublic := false,
            body := noteBody sampleRuntime false (.num 1) (.num 3) (.bool false) },
        status := none, tags := none } ∧
    postCSATInternalNoteToZendesk_ sampleRuntime sampleConfig taggedApi (.fin 7) (.num 1) (.num 3)
        (.bool false) =
      .ok [.putTicket (.fin 7)
        (buildTicketData sampleRuntime taggedApi (.fin 7) (.num 1) (.num 3) (.bool false))] :=
  ⟨by decide, by norm_num, rfl, rfl, rfl⟩

/-- C6: when the update holds the ticket and the tags read from the ticket are `existing`,
the submitted tag list is `existing` itself if "csat_very_low" is a member and `existing`
followed by "csat_very_low" otherwise: every existing tag is kept in its original order.
Hence a list with at most one occurrence of the tag is submitted with exactly one, and a
second update, reading back the tags submitted by the first, submits the same list again.
The merge of lines 552-554 returns its own output unchanged. -/
theorem idempotent_tagging :
    (∀ (rt : JsBuiltins) (api : ZendeskApi) (ticketId : JsNumber)
        (csatRate npsRate comment : Cell) (ticket : Ticket) (existing : List String),
      isVeryLow rt csatRate comment = true →
      (api.ticket ticketId).code = 200 → (api.ticket ticketId).data.ticket = some ticket →
      ticket.tags = some existing →
      (buildTicketData rt api ticketId csatRate npsRate comment).tags =
          some (if "csat_very_low" ∈ existing then existing
            else existing ++ ["csat_very_low"]) ∧
      (existing.count "csat_very_low" ≤ 1 →
        ∃ submitted, (buildTicketData rt api ticketId csatRate npsRate comment).tags =
            some submitted ∧ submitted.count "csat_very_low" = 1) ∧
      (∀ (again : ZendeskApi) (ticketAgain : Ticket),
        (again.ticket ticketId).code = 200 →
        (again.ticket ticketId).data.ticket = some ticketAgain →
        ticketAgain.tags = (buildTicketData rt api ticketId csatRate npsRate comment).tags →
        (buildTicketData rt again ticketId csatRate npsRate comment).tags =
          (buildTicketData rt api ticketId csatRate npsRate comment).tags)) ∧
    (∀ tags : List String,
      ("csat_very_low" ∈ tags → addVeryLowTag tags = tags) ∧
      ("csat_very_low" ∉ tags → addVeryLowTag tags = tags ++ ["csat_very_low"]) ∧
      (tags.count "csat_very_low" ≤ 1 → (addVeryLowTag tags).count "csat_very_low" = 1) ∧
      addVeryLowTag (addVeryLowTag tags) = addVeryLowTag tags) := by
  have hcount : ∀ tags : List String, tags.count "csat_very_low" ≤ 1 →
      (addVeryLowTag tags).count "csat_very_low" = 1 := by
    intro tags hc
    by_cases h : "csat_very_low" ∈ tags
    · rw [addVeryLowTag_of_mem tags h]
      have := List.count_pos_iff.mpr h
      omega
    · rw [addVeryLowTag_of_not_mem tags h, List.count_append, List.count_eq_zero_of_not_mem h]
      simp
  constructor
  · intro rt api ticketId csatRate npsRate comment ticket existing hlow hcode hticket htags
    have hread := existingTags_of_read (api.ticket ticketId) ticket existing hcode hticket htags
    have hsub : (buildTicketData rt api ticketId csatRate npsRate comment).tags =
        some (addVeryLowTag existing) := by
      rw [buildTicketData_veryLow _ _ _ _ _ _ hlow, hread]
    refine ⟨?_, ?_, ?_⟩
    · rw [hsub]
      rfl
    · intro hc
      exact ⟨_, hsub, hcount existing hc⟩
    · intro again ticketAgain hcode2 hticket2 htags2
      have htags3 : ticketAgain.tags = some (addVeryLowTag existing) := by
        rw [hsub] at htags2
        exact htags2
      have hread2 := existingTags_of_read (again.ticket ticketId) ticketAgain _ hcode2 hticket2
        htags3
      rw [hsub, buildTicketData_veryLow _ _ _ _ _ _ hlow, hread2,
        addVeryLowTag_of_mem _ (mem_addVeryLowTag existing)]
  · intro tags
    exact ⟨addVeryLowTag_of_mem tags, addVeryLowTag_of_not_mem tags, hcount tags,
      addVeryLowTag_of_mem _ (mem_addVeryLowTag tags)⟩

/-- C6 on a ticket tagged "vip" and "billing": the first update submits the two tags followed
by "csat_very_low", and an update of the ticket that carries these three tags submits the
same three tags. -/
theorem idempotent_tagging_witness :
    isVeryLow sampleRuntime (.num 1) (.str "bad service") = true ∧
    (taggedApi.ticket (.fin 7)).data.ticket = some ⟨some 4, some ["vip", "billing"]⟩ ∧
    (buildTicketData sampleRuntime taggedApi (.fin 7) (.num 1) (.num 3)
      (.str "bad service")).tags = some ["vip", "billing", "csat_very_low"] ∧
    (buildTicketData sampleRuntime retaggedApi (.fin 7) (.num 1) (.num 3)
      (.str "bad service")).tags = some ["vip", "billing", "csat_very_low"] :=
  ⟨by rw [isVeryLow_num, hasComment_str]; norm_num; decide, rfl,
    ((idempotent_tagging.1 sampleRuntime taggedApi (.fin 7) (.num 1) (.num 3)
      (.str "bad service") ⟨some 4, some ["vip", "billing"]⟩ ["vip", "billing"]
      (by rw [isVeryLow_num, hasComment_str]; norm_num; decide) rfl rfl rfl).1).trans
      (by decide),
    rfl⟩

/-- C10, amended: for an absent `csatRate` (`null` or the empty text of an empty cell) and
every comment cell that is truthy (not `null`, not the empty text, not the number 0, not
`FALSE`) and whose text is non-blank after trimming, the coercion `Number(csatRate)` is `0`,
the response is very low, and the update sets status "hold" with a tag list containing
"csat_very_low": the same status and tags as for `csatRate = 1`. -/
theorem absent_rate_is_very_low (rt : JsBuiltins) (cfg : Config) (api : ZendeskApi)
    (ticketId : JsNumber) (csatRate npsRate comment : Cell) (hcfg : cfg.missing = false)
    (habsent : csatRate = .null ∨ csatRate = .str "")
    (htruthy : comment.truthy = true) (hs : jsTrim (comment.toStr rt) ≠ "") :
    csatRate.toNumber rt = .fin 0 ∧
    isVeryLow rt csatRate comment = true ∧
    postCSATInternalNoteToZendesk_ rt cfg api ticketId csatRate npsRate comment =
      .ok [.getTicket ticketId,
        .putTicket ticketId (buildTicketData rt api ticketId csatRate npsRate comment)] ∧
    (buildTicketData rt api ticketId csatRate npsRate comment).status = some "hold" ∧
    (∃ tags, (buildTicketData rt api ticketId csatRate npsRate comment).tags = some tags ∧
      "csat_very_low" ∈ tags) ∧
    (buildTicketData rt api ticketId csatRate npsRate comment).status =
      (buildTicketData rt api ticketId (.num 1) npsRate comment).status ∧
    (buildTicketData rt api ticketId csatRate npsRate comment).tags =
      (buildTicketData rt api ticketId (.num 1) npsRate comment).tags := by
  have hempty : jsTrim "" = "" := by decide
  have hnum : csatRate.toNumber rt = .fin 0 := by
    rcases habsent with h | h <;> subst h <;> simp [Cell.toNumber, hempty]
  have hlow : isVeryLow rt csatRate comment = true := by
    simp [isVeryLow, hnum, hasComment, htruthy, hs, JsNumber.isNaN, JsNumber.le,
      VERY_LOW_CSAT_THRESHOLD]
  have hone : isVeryLow rt (.num 1) comment = true :=
    (isVeryLow_num_iff rt 1 comment).mpr ⟨htruthy, hs, by norm_num⟩
  refine ⟨hnum, hlow, ?_, ?_, ?_, ?_, ?_⟩
  · simp [postCSATInternalNoteToZendesk_, hcfg, hlow]
  · rw [buildTicketData_veryLow _ _ _ _ _ _ hlow]
  · rw [buildTicketData_veryLow _ _ _ _ _ _ hlow]
    exact ⟨_, rfl, mem_addVeryLowTag _⟩
  · rw [buildTicketData_veryLow _ _ _ _ _ _ hlow, buildTicketData_veryLow _ _ _ _ _ _ hone]
  · rw [buildTicketData_veryLow _ _ _ _ _ _ hlow, buildTicketData_veryLow _ _ _ _ _ _ hone]

/-- C10, amended, on an empty rate cell with the comment " slow answer ". -/
theorem absent_rate_is_very_low_witness :
    sampleConfig.missing = false ∧ Cell.truthy (.str " slow answer ") = true ∧
    jsTrim (Cell.toStr sampleRuntime (.str " slow answer ")) ≠ "" ∧
    (buildTicketData sampleRuntime taggedApi (.fin 7) (.str "") (.num 3)
      (.str " slow answer ")).status = some "hold" ∧
    (buildTicketData sampleRuntime taggedApi (.fin 7) (.str "") (.num 3)
      (.str " slow answer ")).tags = some ["vip", "billing", "csat_very_low"] :=
  ⟨by decide, by decide, by decide,
    (absent_rate_is_very_low sampleRuntime sampleConfig taggedApi (.fin 7) (.str "") (.num 3)
      (.str " slow answer ") (by decide) (Or.inr rfl) (by decide) (by decide)).2.2.2.1,
    rfl⟩

/-- C10 as stated fails: with an empty rate cell and a comment cell holding `FALSE`, whose
text "false" is non-blank after trimming, `Number(csatRate)` is 0 but the update has neither
status nor tags, because `comment && ..` is falsy. -/
theorem absent_rate_counterexample :
    jsTrim (Cell.toStr sampleRuntime (.bool false)) ≠ "" ∧
    Cell.toNumber sampleRuntime (.str "") = .fin 0 ∧
    Cell.truthy (.bool false) = false ∧
    buildTicketData sampleRuntime taggedApi (.fin 7) (.str "") (.num 3) (.bool false) =
      { comment :=
          { isPublic := false,
            body := noteBody sampleRuntime false (.str "") (.num 3) (.bool false) },
        status := none, tags := none } ∧
    postCSATInternalNoteToZendesk_ sampleRuntime sampleConfig taggedApi (.fin 7) (.str "")
        (.num 3) (.bool false) =
      .ok [.putTicket (.fin 7)
        (buildTicketData sampleRuntime taggedApi (.fin 7) (.str "") (.num 3) (.bool false))] :=
  ⟨by decide, by decide, rfl, rfl, rfl⟩

/-! ## The backfill: C8 -/

theorem backfillRow_keeps (rt : JsBuiltins) (cfg : Config) (api : ZendeskApi)
    (st : BackfillState) (rowIndex r : Nat) (v : Cell) (htruthy : v.truthy = true)
    (hcell : st.sheet.cell r COL_AGENT_NAME = v) (hlog : r ∉ st.attributed) :
    (backfillRow rt cfg api st rowIndex).sheet.cell r COL_AGENT_NAME = v ∧
    r ∉ (backfillRow rt cfg api st rowIndex).attributed := by
  unfold backfillRow
  simp only [Sheet.getValue]
  split
  · exact ⟨hcell, hlog⟩
  · split
    · exact ⟨hcell, hlog⟩
    · rename_i hfalsy hagent
      have hne : rowIndex ≠ r := by
        intro e
        subst e
        rw [hcell] at hagent
        exact hagent htruthy
      have hlog2 : r ∉ st.attributed ++ [rowIndex] := by
        simp only [List.mem_append, List.mem_singleton, not_or]
        exact ⟨hlog, fun e => hne e.symm⟩
      split
      · exact ⟨hcell, hlog⟩
      · split
        · split
          · refine ⟨?_, hlog2⟩
            simp only [Sheet.setValue]
            rw [if_neg (fun h => hne h.1.symm)]
            exact hcell
          · exact ⟨hcell, hlog2⟩
        · exact ⟨hcell, hlog2⟩

theorem foldl_backfillRow_keeps (rt : JsBuiltins) (cfg : Config) (api : ZendeskApi)
    (rows : List Nat) (r : Nat) (v : Cell) (htruthy : v.truthy = true) :
    ∀ st : BackfillState, st.sheet.cell r COL_AGENT_NAME = v → r ∉ st.attributed →
      (rows.foldl (backfillRow rt cfg api) st).sheet.cell r COL_AGENT_NAME = v ∧
      r ∉ (rows.foldl (backfillRow rt cfg api) st).attributed := by
  induction rows with
  | nil => exact fun st h1 h2 => ⟨h1, h2⟩
  | cons row rest ih =>
    intro st h1 h2
    obtain ⟨h3, h4⟩ := backfillRow_keeps rt cfg api st row r v htruthy h1 h2
    exact ih _ h3 h4

/-- C8, amended: whatever the configuration and the answers of Zendesk, a row whose
agent-name cell holds a truthy value before the backfill pass (a non-empty text, a non-zero
number, `TRUE` or a date; in particular any such row from 2 to the last row) has the same
cell after the pass, and `getTicketAgentForCSAT_` is not called for it.  For a text cell
truthy means non-empty. -/
theorem backfill_skip (rt : JsBuiltins) (cfg : Config) (api : ZendeskApi) (sheet : Sheet)
    (r : Nat) (htruthy : (sheet.cell r COL_AGENT_NAME).truthy = true) :
    (backfillAgentsForExistingRows rt cfg api sheet).sheet.cell r COL_AGENT_NAME =
        sheet.cell r COL_AGENT_NAME ∧
    r ∉ (backfillAgentsForExistingRows rt cfg api sheet).attributed ∧
    (∀ name : String, Cell.truthy (.str name) = true ↔ name ≠ "") := by
  refine ⟨?_, ?_, fun name => by simp [Cell.truthy]⟩
  · unfold backfillAgentsForExistingRows
    split
    · rfl
    · exact (foldl_backfillRow_keeps rt cfg api _ r _ htruthy ⟨sheet, [], []⟩ rfl (by simp)).1
  · unfold backfillAgentsForExistingRows
    split
    · simp
    · exact (foldl_backfillRow_keeps rt cfg api _ r _ htruthy ⟨sheet, [], []⟩ rfl (by simp)).2

/-- C8, amended, on the sample sheet: row 2 keeps its agent, row 3 is the only row
attributed. -/
theorem backfill_skip_witness :
    (sampleSheet.cell 2 COL_AGENT_NAME).truthy = true ∧
    (backfillAgentsForExistingRows sampleRuntime sampleConfig unnamedApi sampleSheet).attributed =
      [3] ∧
    (backfillAgentsForExistingRows sampleRuntime sampleConfig unnamedApi sampleSheet).sheet.cell
      3 COL_AGENT_NAME = .str "Basma" ∧
    (backfillAgentsForExistingRows sampleRuntime sampleConfig unnamedApi sampleSheet).sheet.cell
      2 COL_AGENT_NAME = .str "Someone Else" :=
  ⟨by decide, by decide, by decide,
    (backfill_skip sampleRuntime sampleConfig unnamedApi sampleSheet 2 (by decide)).1⟩

/-- C8 as stated fails: row 2 holds a ticket number and the number 0 in its agent-name cell,
which is not empty; `if (existingAgent)` is false for 0, so the row is attributed and the
cell is overwritten. -/
theorem backfill_skip_counterexample :
    2 ≤ zeroAgentSheet.lastRow ∧
    zeroAgentSheet.cell 2 COL_AGENT_NAME = .num 0 ∧
    zeroAgentSheet.cell 2 COL_AGENT_NAME ≠ .str "" ∧
    (backfillAgentsForExistingRows sampleRuntime sampleConfig unnamedApi
      zeroAgentSheet).attributed = [2] ∧
    (backfillAgentsForExistingRows sampleRuntime sampleConfig unnamedApi
      zeroAgentSheet).sheet.cell 2 COL_AGENT_NAME = .str "Basma" :=
  ⟨by decide, by decide, by decide, by decide, by decide⟩

end CsatRelay
